import Mathlib

/-!
Verification of the integration sync and conflict core
(backend/apps/integrations: utils.py, apple_client.py,
microsoft_teams_client.py, webex_client.py).

Python strings are embedded as Lean String where only equality and
concatenation matter, and as List Char where character-level scanning
(iCalendar line parsing, substring tests) matters.  Machine datetimes are
embedded as a record of calendar fields plus explicit range validity;
instants used only for interval comparison are plain naturals.
-/

abbrev Str := List Char

/-- Python str.isspace characters relevant to str.strip: space, tab, CR, LF,
vertical tab and form feed. -/
def isPySpace (c : Char) : Bool :=
  c = ' ' || c = '\t' || c = '\r' || c = '\n' || c = '\x0b' || c = '\x0c'

/-- Removal of trailing whitespace, the right half of Python str.strip. -/
def dropTrailWs (s : Str) : Str :=
  ((s.reverse).dropWhile isPySpace).reverse

/-- Python str.strip(): removes leading and trailing whitespace. -/
def pyStrip (s : Str) : Str :=
  dropTrailWs (s.dropWhile isPySpace)

/- ### Conflict detection (utils.py detect_integration_conflicts,
_determine_overlap_type) -/

structure ExternalEvent where
  external_id : String
  summary : String
  start_datetime : Nat
  end_datetime : Nat
deriving DecidableEq

structure BlockedTime where
  id : String
  reason : String
  source : String
  start_datetime : Nat
  end_datetime : Nat
deriving DecidableEq

/-- utils.py _determine_overlap_type: classifies the relation between the
periods [start1, end1] and [start2, end2], first branch winning. -/
def _determine_overlap_type (start1 end1 start2 end2 : Nat) : String :=
  if start1 ≤ start2 ∧ end1 ≥ end2 then "complete_overlap"
  else if start2 ≤ start1 ∧ end2 ≥ end1 then "contained_overlap"
  else if start1 < end2 ∧ end1 > start2 then "partial_overlap"
  else "no_overlap"

/-- Pair record built by detect_integration_conflicts for each overlapping
(event, manual block) pair; the isoformat rendering of the dict is dropped,
the fields it is built from are kept. -/
structure OverlapInfo where
  event : ExternalEvent
  block : BlockedTime
  overlap_type : String
deriving DecidableEq

/-- utils.py detect_integration_conflicts: the ORM filter
source=manual, start_datetime__lt=event_end, end_datetime__gt=event_start. -/
def overlappingBlocks (e : ExternalEvent) (blocks : List BlockedTime) :
    List BlockedTime :=
  blocks.filter fun b =>
    b.source = "manual" ∧ b.start_datetime < e.end_datetime ∧
      b.end_datetime > e.start_datetime

/-- Record built for one (event, block) pair. -/
def mkOverlapInfo (e : ExternalEvent) (b : BlockedTime) : OverlapInfo :=
  ⟨e, b, _determine_overlap_type e.start_datetime e.end_datetime
      b.start_datetime b.end_datetime⟩

structure ConflictReport where
  conflicts : List OverlapInfo
  overlaps : List OverlapInfo
  total_external_events : Nat
  total_manual_blocks : Nat
deriving DecidableEq

/-- Inner loop of detect_integration_conflicts: appends each overlapping
block to conflicts when classified complete_overlap, else to overlaps. -/
def conflictStep (e : ExternalEvent)
    (acc : List OverlapInfo × List OverlapInfo) (b : BlockedTime) :
    List OverlapInfo × List OverlapInfo :=
  let info := mkOverlapInfo e b
  if info.overlap_type = "complete_overlap" then (acc.1 ++ [info], acc.2)
  else (acc.1, acc.2 ++ [info])

/-- utils.py detect_integration_conflicts: outer loop over external events,
inner loop over the filtered manual blocks. -/
def detect_integration_conflicts (events : List ExternalEvent)
    (blocks : List BlockedTime) : ConflictReport :=
  let acc := events.foldl
    (fun acc e => (overlappingBlocks e blocks).foldl (conflictStep e) acc)
    ([], [])
  { conflicts := acc.1
    overlaps := acc.2
    total_external_events := events.length
    total_manual_blocks := (blocks.filter (fun b => b.source = "manual")).length }

/-- Pairs of the inner loop classified complete, in loop order. -/
def completePairs (blocks : List BlockedTime) (e : ExternalEvent) :
    List OverlapInfo :=
  ((overlappingBlocks e blocks).filter fun b =>
    (mkOverlapInfo e b).overlap_type = "complete_overlap").map (mkOverlapInfo e)

/-- Pairs of the inner loop classified other than complete, in loop order. -/
def otherPairs (blocks : List BlockedTime) (e : ExternalEvent) :
    List OverlapInfo :=
  ((overlappingBlocks e blocks).filter fun b =>
    ¬(mkOverlapInfo e b).overlap_type = "complete_overlap").map (mkOverlapInfo e)

lemma foldl_conflictStep (e : ExternalEvent) (bs : List BlockedTime)
    (c o : List OverlapInfo) :
    bs.foldl (conflictStep e) (c, o) =
      (c ++ (bs.filter fun b =>
          (mkOverlapInfo e b).overlap_type = "complete_overlap").map (mkOverlapInfo e),
       o ++ (bs.filter fun b =>
          ¬(mkOverlapInfo e b).overlap_type = "complete_overlap").map (mkOverlapInfo e)) := by
  induction bs generalizing c o with
  | nil => simp
  | cons b bs ih =>
    by_cases h : (mkOverlapInfo e b).overlap_type = "complete_overlap"
    · simp [List.foldl_cons, List.filter_cons, conflictStep, h, ih]
    · simp [List.foldl_cons, List.filter_cons, conflictStep, h, ih]

lemma foldl_conflict_outer (events : List ExternalEvent)
    (blocks : List BlockedTime) (c o : List OverlapInfo) :
    events.foldl
        (fun acc e => (overlappingBlocks e blocks).foldl (conflictStep e) acc)
        (c, o) =
      (c ++ events.flatMap (completePairs blocks),
       o ++ events.flatMap (otherPairs blocks)) := by
  induction events generalizing c o with
  | nil => simp
  | cons e es ih =>
    simp [List.foldl_cons, foldl_conflictStep, ih, completePairs, otherPairs,
      List.flatMap_cons, List.append_assoc]

lemma detect_conflicts_eq (events : List ExternalEvent)
    (blocks : List BlockedTime) :
    (detect_integration_conflicts events blocks).conflicts =
      events.flatMap (completePairs blocks) := by
  simp [detect_integration_conflicts, foldl_conflict_outer]

lemma detect_overlaps_eq (events : List ExternalEvent)
    (blocks : List BlockedTime) :
    (detect_integration_conflicts events blocks).overlaps =
      events.flatMap (otherPairs blocks) := by
  simp [detect_integration_conflicts, foldl_conflict_outer]

lemma overlap_type_complete_iff (s1 e1 s2 e2 : Nat) :
    _determine_overlap_type s1 e1 s2 e2 = "complete_overlap" ↔
      s1 ≤ s2 ∧ e1 ≥ e2 := by
  unfold _determine_overlap_type
  split_ifs with h1 h2 h3 <;> simp_all

lemma overlap_type_contained (s1 e1 s2 e2 : Nat)
    (hnc : ¬(s1 ≤ s2 ∧ e1 ≥ e2)) (hc : s2 ≤ s1 ∧ e2 ≥ e1) :
    _determine_overlap_type s1 e1 s2 e2 = "contained_overlap" := by
  unfold _determine_overlap_type
  split_ifs <;> simp_all

lemma overlap_type_partial_branch (s1 e1 s2 e2 : Nat)
    (hi1 : s1 < e2) (hi2 : e1 > s2)
    (hnc : ¬(s1 ≤ s2 ∧ e1 ≥ e2)) (hnd : ¬(s2 ≤ s1 ∧ e2 ≥ e1)) :
    _determine_overlap_type s1 e1 s2 e2 = "partial_overlap" := by
  unfold _determine_overlap_type
  split_ifs <;> simp_all

lemma overlap_type_ne_no_overlap (s1 e1 s2 e2 : Nat)
    (hi1 : s1 < e2) (hi2 : e1 > s2) :
    _determine_overlap_type s1 e1 s2 e2 ≠ "no_overlap" := by
  unfold _determine_overlap_type
  split_ifs <;> simp_all

lemma mem_completePairs {blocks : List BlockedTime} {e : ExternalEvent}
    {info : OverlapInfo} (h : info ∈ completePairs blocks e) :
    ∃ b ∈ blocks, info = mkOverlapInfo e b ∧
      b.source = "manual" ∧ b.start_datetime < e.end_datetime ∧
      b.end_datetime > e.start_datetime ∧
      info.overlap_type = "complete_overlap" := by
  simp only [completePairs, List.mem_map, List.mem_filter,
    overlappingBlocks, decide_eq_true_eq] at h
  obtain ⟨b, ⟨⟨hbmem, hsrc, hlt, hgt⟩, hcomp⟩, rfl⟩ := h
  exact ⟨b, hbmem, rfl, hsrc, hlt, hgt, hcomp⟩

lemma mem_otherPairs {blocks : List BlockedTime} {e : ExternalEvent}
    {info : OverlapInfo} (h : info ∈ otherPairs blocks e) :
    ∃ b ∈ blocks, info = mkOverlapInfo e b ∧
      b.source = "manual" ∧ b.start_datetime < e.end_datetime ∧
      b.end_datetime > e.start_datetime ∧
      ¬info.overlap_type = "complete_overlap" := by
  simp only [otherPairs, List.mem_map, List.mem_filter,
    overlappingBlocks, decide_eq_true_eq] at h
  obtain ⟨b, ⟨⟨hbmem, hsrc, hlt, hgt⟩, hcomp⟩, rfl⟩ := h
  exact ⟨b, hbmem, rfl, hsrc, hlt, hgt, by simpa using hcomp⟩

/-- C1: detect_integration_conflicts pairs each external event only with
blocks whose source is manual and whose interval intersects the event
(block.start < event.end and block.end > event.start), and every such pair
is paired; an intersecting pair is classified complete_overlap exactly when
event.start <= block.start and event.end >= block.end (identical intervals
included, that branch being tested first) and is appended to conflicts;
a pair whose block contains the event is classified contained_overlap and
any other intersection partial_overlap, both appended to overlaps; under
the intersection precondition the classifier never returns no_overlap. -/
theorem detect_integration_conflicts_spec
    (events : List ExternalEvent) (blocks : List BlockedTime) :
    (∀ info ∈ (detect_integration_conflicts events blocks).conflicts ++
        (detect_integration_conflicts events blocks).overlaps,
      info.block.source = "manual" ∧
      info.block.start_datetime < info.event.end_datetime ∧
      info.block.end_datetime > info.event.start_datetime) ∧
    (∀ info ∈ (detect_integration_conflicts events blocks).conflicts,
      info.overlap_type = "complete_overlap" ∧
      info.event.start_datetime ≤ info.block.start_datetime ∧
      info.event.end_datetime ≥ info.block.end_datetime) ∧
    (∀ info ∈ (detect_integration_conflicts events blocks).overlaps,
      (info.overlap_type = "contained_overlap" ∨
        info.overlap_type = "partial_overlap") ∧
      ¬(info.event.start_datetime ≤ info.block.start_datetime ∧
        info.event.end_datetime ≥ info.block.end_datetime)) ∧
    (∀ e ∈ events, ∀ b ∈ blocks, b.source = "manual" →
      b.start_datetime < e.end_datetime → b.end_datetime > e.start_datetime →
      mkOverlapInfo e b ∈
        (detect_integration_conflicts events blocks).conflicts ++
          (detect_integration_conflicts events blocks).overlaps) ∧
    (∀ s1 e1 s2 e2 : Nat, s1 < e2 → e1 > s2 →
      _determine_overlap_type s1 e1 s2 e2 ≠ "no_overlap" ∧
      (_determine_overlap_type s1 e1 s2 e2 = "complete_overlap" ↔
        s1 ≤ s2 ∧ e1 ≥ e2) ∧
      (¬(s1 ≤ s2 ∧ e1 ≥ e2) → s2 ≤ s1 ∧ e2 ≥ e1 →
        _determine_overlap_type s1 e1 s2 e2 = "contained_overlap") ∧
      (¬(s1 ≤ s2 ∧ e1 ≥ e2) → ¬(s2 ≤ s1 ∧ e2 ≥ e1) →
        _determine_overlap_type s1 e1 s2 e2 = "partial_overlap")) ∧
    (∀ s e : Nat, _determine_overlap_type s e s e = "complete_overlap") := by
  refine ⟨?_, ?_, ?_, ?_, ?_, ?_⟩
  · intro info hmem
    rw [detect_conflicts_eq, detect_overlaps_eq] at hmem
    rcases List.mem_append.1 hmem with h | h
    · obtain ⟨e, _, hp⟩ := List.mem_flatMap.1 h
      obtain ⟨b, _, heq, hs, hl, hg, _⟩ := mem_completePairs hp
      subst heq
      exact ⟨hs, hl, hg⟩
    · obtain ⟨e, _, hp⟩ := List.mem_flatMap.1 h
      obtain ⟨b, _, heq, hs, hl, hg, _⟩ := mem_otherPairs hp
      subst heq
      exact ⟨hs, hl, hg⟩
  · intro info hmem
    rw [detect_conflicts_eq] at hmem
    obtain ⟨e, _, hp⟩ := List.mem_flatMap.1 hmem
    obtain ⟨b, _, heq, _, _, _, hcomp⟩ := mem_completePairs hp
    subst heq
    exact ⟨hcomp, (overlap_type_complete_iff _ _ _ _).1 hcomp⟩
  · intro info hmem
    rw [detect_overlaps_eq] at hmem
    obtain ⟨e, _, hp⟩ := List.mem_flatMap.1 hmem
    obtain ⟨b, _, heq, _, hl, hg, hncomp⟩ := mem_otherPairs hp
    subst heq
    have hnc : ¬(e.start_datetime ≤ b.start_datetime ∧
        e.end_datetime ≥ b.end_datetime) := fun hc =>
      hncomp ((overlap_type_complete_iff _ _ _ _).2 hc)
    refine ⟨?_, hnc⟩
    by_cases hcont : b.start_datetime ≤ e.start_datetime ∧
        b.end_datetime ≥ e.end_datetime
    · exact Or.inl (overlap_type_contained _ _ _ _ hnc hcont)
    · exact Or.inr (overlap_type_partial_branch _ _ _ _ hg hl hnc hcont)
  · intro e he b hb hs hl hg
    rw [detect_conflicts_eq, detect_overlaps_eq]
    by_cases hcomp : _determine_overlap_type e.start_datetime e.end_datetime
        b.start_datetime b.end_datetime = "complete_overlap"
    · refine List.mem_append.2 (Or.inl (List.mem_flatMap.2 ⟨e, he, ?_⟩))
      unfold completePairs
      refine List.mem_map.2 ⟨b, List.mem_filter.2 ⟨List.mem_filter.2
        ⟨hb, ?_⟩, ?_⟩, rfl⟩
      · simp [hs, hl, hg]
      · simp [mkOverlapInfo, hcomp]
    · refine List.mem_append.2 (Or.inr (List.mem_flatMap.2 ⟨e, he, ?_⟩))
      unfold otherPairs
      refine List.mem_map.2 ⟨b, List.mem_filter.2 ⟨List.mem_filter.2
        ⟨hb, ?_⟩, ?_⟩, rfl⟩
      · simp [hs, hl, hg]
      · simp [mkOverlapInfo, hcomp]
  · intro s1 e1 s2 e2 h1 h2
    exact ⟨overlap_type_ne_no_overlap _ _ _ _ h1 h2,
      overlap_type_complete_iff _ _ _ _,
      fun hnc hc => overlap_type_contained _ _ _ _ hnc hc,
      fun hnc hnd => overlap_type_partial_branch _ _ _ _ h1 h2 hnc hnd⟩
  · intro s e
    exact (overlap_type_complete_iff _ _ _ _).2 ⟨le_refl _, le_refl _⟩

/-- Witness for C1: a concrete intersecting manual pair is paired by
detect_integration_conflicts. -/
theorem detect_integration_conflicts_spec_witness :
    mkOverlapInfo ⟨"ev1", "Busy", 10, 20⟩ ⟨"b1", "lunch", "manual", 12, 25⟩ ∈
      (detect_integration_conflicts [⟨"ev1", "Busy", 10, 20⟩]
          [⟨"b1", "lunch", "manual", 12, 25⟩]).conflicts ++
        (detect_integration_conflicts [⟨"ev1", "Busy", 10, 20⟩]
          [⟨"b1", "lunch", "manual", 12, 25⟩]).overlaps :=
  (detect_integration_conflicts_spec
      [⟨"ev1", "Busy", 10, 20⟩] [⟨"b1", "lunch", "manual", 12, 25⟩]).2.2.2.1
    ⟨"ev1", "Busy", 10, 20⟩ (by simp)
    ⟨"b1", "lunch", "manual", 12, 25⟩ (by simp)
    (by decide) (by decide) (by decide)

/- ### Rate limiting (utils.py rate_limit_key, check_rate_limit,
record_api_call).  The Django cache is embedded as an association list of
(key, value, expiry instant); cache.set prepends, cache.get reads the most
recent binding and treats it as absent once the expiry instant is reached. -/

abbrev Cache := List (String × Nat × Nat)

/-- Django cache.get(key, 0): value of the latest binding while unexpired,
default 0 otherwise. -/
def cache_get (c : Cache) (k : String) (now : Nat) : Nat :=
  match c.find? (fun e => decide (e.1 = k)) with
  | some (_, v, exp) => if now < exp then v else 0
  | none => 0

/-- Django cache.set(key, v, timeout): binds the key to v until
now + timeout. -/
def cache_set (c : Cache) (k : String) (v : Nat) (timeout now : Nat) : Cache :=
  (k, v, now + timeout) :: c

/-- utils.py rate_limit_key. -/
def rate_limit_key (provider organizer_id : String) : String :=
  "rate_limit:" ++ provider ++ ":" ++ organizer_id

/-- utils.py check_rate_limit limits dict with the default settings values,
composed with dict.get(provider, 50). -/
def integration_rate_limits (provider : String) : Nat :=
  if provider = "google" then 100
  else if provider = "outlook" then 60
  else if provider = "zoom" then 80
  else 50

/-- Payload of the RateLimitError message: current count and limit. -/
structure RateLimitErrorInfo where
  current : Nat
  limit : Nat
deriving DecidableEq

/-- utils.py check_rate_limit: raises when the window count is at or above
the provider budget, else returns True; reads the cache, never writes it. -/
def check_rate_limit (provider organizer_id : String) (c : Cache)
    (now : Nat) : Except RateLimitErrorInfo Bool :=
  let current := cache_get c (rate_limit_key provider organizer_id) now
  let limit := integration_rate_limits provider
  if current ≥ limit then Except.error ⟨current, limit⟩ else Except.ok true

/-- utils.py record_api_call: increments the window counter with a fresh
60-second expiry. -/
def record_api_call (provider organizer_id : String) (c : Cache)
    (now : Nat) : Cache :=
  let key := rate_limit_key provider organizer_id
  cache_set c key (cache_get c key now + 1) 60 now

/-- A burst of n recorded API calls at one instant. -/
def recordBurst (provider organizer_id : String) (now : Nat) :
    Nat → Cache → Cache
  | 0, c => c
  | n + 1, c => record_api_call provider organizer_id
      (recordBurst provider organizer_id now n c) now

lemma cache_get_record (provider organizer_id : String) (c : Cache)
    (now t : Nat) :
    cache_get (record_api_call provider organizer_id c now)
        (rate_limit_key provider organizer_id) t =
      if t < now + 60 then
        cache_get c (rate_limit_key provider organizer_id) now + 1
      else 0 := by
  simp [record_api_call, cache_set, cache_get, List.find?_cons]

lemma cache_get_recordBurst_now (provider organizer_id : String) (c : Cache)
    (now : Nat) (n : Nat) :
    cache_get (recordBurst provider organizer_id now n c)
        (rate_limit_key provider organizer_id) now =
      cache_get c (rate_limit_key provider organizer_id) now + n := by
  induction n with
  | zero => simp [recordBurst]
  | succ n ih =>
    simp [recordBurst, cache_get_record, ih]
    omega

lemma cache_get_recordBurst (provider organizer_id : String) (c : Cache)
    (now t : Nat) (n : Nat) (hn : 1 ≤ n) :
    cache_get (recordBurst provider organizer_id now n c)
        (rate_limit_key provider organizer_id) t =
      if t < now + 60 then
        cache_get c (rate_limit_key provider organizer_id) now + n
      else 0 := by
  cases n with
  | zero => omega
  | succ n =>
    simp [recordBurst, cache_get_record, cache_get_recordBurst_now]
    split_ifs with h
    · omega
    · rfl

/-- C3 counterexample: the limits dict names only google, outlook and zoom,
so microsoft_teams falls to the 50 fallback; at a window count of 55 —
below the 60 budget the claim assigns to the Microsoft family —
check_rate_limit already raises, and the error carries limit 50, not 60. -/
theorem check_rate_limit_teams_budget_counterexample :
    check_rate_limit "microsoft_teams" "7"
        [("rate_limit:microsoft_teams:7", 55, 100)] 0 =
      Except.error ⟨55, 50⟩ ∧ (55 : Nat) < 60 := by
  constructor
  · rfl
  · norm_num

/-- C3 (amended: the Microsoft-family budget of 60 applies to outlook only;
microsoft_teams is unlisted and gets the 50 fallback): check_rate_limit
raises exactly when the 60-second window count reaches the provider budget
— google 100, outlook 60, zoom 80, any other provider 50 — with the error
carrying the current count and the limit, and returns True otherwise;
record_api_call increments the window counter with a 60-second expiry, so
after limit recorded calls within the window the next check raises, and
once the window has elapsed with no further records check succeeds again. -/
theorem check_rate_limit_budget_spec (provider organizer_id : String)
    (c : Cache) (now t : Nat) :
    (integration_rate_limits "google" = 100 ∧
      integration_rate_limits "outlook" = 60 ∧
      integration_rate_limits "zoom" = 80 ∧
      integration_rate_limits "microsoft_teams" = 50 ∧
      (provider ≠ "google" → provider ≠ "outlook" → provider ≠ "zoom" →
        integration_rate_limits provider = 50)) ∧
    (cache_get c (rate_limit_key provider organizer_id) now ≥
        integration_rate_limits provider →
      check_rate_limit provider organizer_id c now =
        Except.error
          ⟨cache_get c (rate_limit_key provider organizer_id) now,
           integration_rate_limits provider⟩) ∧
    (cache_get c (rate_limit_key provider organizer_id) now <
        integration_rate_limits provider →
      check_rate_limit provider organizer_id c now = Except.ok true) ∧
    (cache_get (record_api_call provider organizer_id c now)
        (rate_limit_key provider organizer_id) t =
      if t < now + 60 then
        cache_get c (rate_limit_key provider organizer_id) now + 1
      else 0) ∧
    (cache_get c (rate_limit_key provider organizer_id) now = 0 →
      t < now + 60 →
      check_rate_limit provider organizer_id
          (recordBurst provider organizer_id now
            (integration_rate_limits provider) c) t =
        Except.error ⟨integration_rate_limits provider,
          integration_rate_limits provider⟩) ∧
    (cache_get c (rate_limit_key provider organizer_id) now = 0 →
      now + 60 ≤ t →
      check_rate_limit provider organizer_id
          (recordBurst provider organizer_id now
            (integration_rate_limits provider) c) t =
        Except.ok true) := by
  have hpos : 1 ≤ integration_rate_limits provider := by
    unfold integration_rate_limits
    split_ifs <;> omega
  refine ⟨⟨rfl, rfl, rfl, rfl, ?_⟩, ?_, ?_, ?_, ?_, ?_⟩
  · intro h1 h2 h3
    simp [integration_rate_limits, h1, h2, h3]
  · intro h
    simp [check_rate_limit, h]
  · intro h
    simp only [check_rate_limit]
    rw [if_neg (by omega)]
  · exact cache_get_record provider organizer_id c now t
  · intro h0 ht
    rw [check_rate_limit,
      cache_get_recordBurst provider organizer_id c now t _ hpos,
      if_pos ht, h0]
    simp
  · intro h0 ht
    rw [check_rate_limit,
      cache_get_recordBurst provider organizer_id c now t _ hpos,
      if_neg (show ¬t < now + 60 by omega)]
    rw [if_neg (show ¬0 ≥ integration_rate_limits provider by omega)]

/-- Witness for C3: google at count 100 raises with the 100 budget after a
burst of 100 recorded calls, and succeeds again after the window. -/
theorem check_rate_limit_budget_spec_witness :
    check_rate_limit "google" "1"
        (recordBurst "google" "1" 0 (integration_rate_limits "google") []) 30 =
      Except.error ⟨integration_rate_limits "google",
        integration_rate_limits "google"⟩ ∧
    check_rate_limit "google" "1"
        (recordBurst "google" "1" 0 (integration_rate_limits "google") []) 60 =
      Except.ok true :=
  ⟨(check_rate_limit_budget_spec "google" "1" [] 0 30).2.2.2.2.1 rfl
      (by norm_num),
   (check_rate_limit_budget_spec "google" "1" [] 0 60).2.2.2.2.2 rfl
      (by norm_num)⟩

/-- Operations on the shared rate-limit counter store. -/
inductive RateLimiterOp where
  | checkOp : RateLimiterOp
  | recordOp : RateLimiterOp
deriving DecidableEq

/-- Sequencing of rate-limiter operations against the cache: check_rate_limit
only reads (utils.py lines 37-54 contain no cache.set), record_api_call
writes the incremented counter back. -/
def run_rate_ops (provider organizer_id : String) (now : Nat) :
    List RateLimiterOp → Cache → Cache
  | [], c => c
  | RateLimiterOp.checkOp :: ops, c =>
      run_rate_ops provider organizer_id now ops c
  | RateLimiterOp.recordOp :: ops, c =>
      run_rate_ops provider organizer_id now ops
        (record_api_call provider organizer_id c now)

/-- C10: check_rate_limit never modifies the counter store — only
record_api_call does — so any number of consecutive checks with no
intervening record leave the cache unchanged and every one of them returns
the same outcome as the first. -/
theorem check_rate_limit_frame (provider organizer_id : String) (now : Nat)
    (c : Cache) (k : Nat) :
    run_rate_ops provider organizer_id now
        (List.replicate k RateLimiterOp.checkOp) c = c ∧
    check_rate_limit provider organizer_id
        (run_rate_ops provider organizer_id now
          (List.replicate k RateLimiterOp.checkOp) c) now =
      check_rate_limit provider organizer_id c now := by
  induction k with
  | zero => exact ⟨rfl, rfl⟩
  | succ k ih =>
    refine ⟨?_, ?_⟩
    · simpa [List.replicate_succ, run_rate_ops] using ih.1
    · simpa [List.replicate_succ, run_rate_ops] using ih.2

/- ### Token lifecycle (utils.py refresh_access_token, _refresh_*_token,
ensure_valid_token).  The HTTP token endpoints are embedded as an oracle
from endpoint URL to either a parsed token response or a raised exception;
each helper returns (success, updated integration, endpoints called). -/

structure TokenData where
  access_token : String
  expires_in : Option Nat
  refresh_token : Option String
deriving DecidableEq

structure Integration where
  provider : String
  access_token : String
  refresh_token : String
  token_expires_at : Option Nat
deriving DecidableEq

/-- Modelled from the spec: is_token_expired is a property of the
integration models, whose models.py is not among the sources; section 4.3
of the spec gives the transition valid to expired at now >= token_expires_at.
An integration with no stored expiry is treated as unexpired. -/
def Integration.is_token_expired (i : Integration) (now : Nat) : Bool :=
  match i.token_expires_at with
  | some e => decide (e ≤ now)
  | none => false

def google_token_url : String := "https://oauth2.googleapis.com/token"

/-- Microsoft token endpoint with the tenant id of the settings left as a
placeholder. -/
def microsoft_token_url : String :=
  "https://login.microsoftonline.com/tenant/oauth2/v2.0/token"

def zoom_token_url : String := "https://zoom.us/oauth/token"

def webex_token_url : String := "https://webexapis.com/v1/access_token"

/-- Token-data application shared by the google, microsoft, zoom and webex
refresh helpers: stores the new access token, an expiry of now plus
expires_in (default 3600), and the new refresh token only when provided. -/
def apply_token_data (i : Integration) (td : TokenData) (now : Nat) :
    Integration :=
  { i with
    access_token := td.access_token
    token_expires_at := some (now + td.expires_in.getD 3600)
    refresh_token :=
      match td.refresh_token with
      | some r => r
      | none => i.refresh_token }

/-- utils.py _refresh_google_token. -/
def _refresh_google_token (net : String → Except String TokenData)
    (now : Nat) (i : Integration) :
    Except String (Bool × Integration × List String) :=
  match net google_token_url with
  | Except.error e => Except.error e
  | Except.ok td =>
      Except.ok (true, apply_token_data i td now, [google_token_url])

/-- utils.py _refresh_microsoft_token, shared by outlook and
microsoft_teams. -/
def _refresh_microsoft_token (net : String → Except String TokenData)
    (now : Nat) (i : Integration) :
    Except String (Bool × Integration × List String) :=
  match net microsoft_token_url with
  | Except.error e => Except.error e
  | Except.ok td =>
      Except.ok (true, apply_token_data i td now, [microsoft_token_url])

/-- utils.py _refresh_zoom_token; a non-200 response surfaces as the raised
IntegrationError, an oracle error here. -/
def _refresh_zoom_token (net : String → Except String TokenData)
    (now : Nat) (i : Integration) :
    Except String (Bool × Integration × List String) :=
  match net zoom_token_url with
  | Except.error e => Except.error e
  | Except.ok td =>
      Except.ok (true, apply_token_data i td now, [zoom_token_url])

/-- utils.py _refresh_webex_token. -/
def _refresh_webex_token (net : String → Except String TokenData)
    (now : Nat) (i : Integration) :
    Except String (Bool × Integration × List String) :=
  match net webex_token_url with
  | Except.error e => Except.error e
  | Except.ok td =>
      Except.ok (true, apply_token_data i td now, [webex_token_url])

/-- utils.py _refresh_apple_token: logs and returns True, touching neither
the network nor the integration. -/
def _refresh_apple_token (i : Integration) :
    Except String (Bool × Integration × List String) :=
  Except.ok (true, i, [])

/-- utils.py refresh_access_token: an empty refresh token is an immediate
False; otherwise dispatch on provider, any raised exception from a helper
is caught and becomes False with the integration untouched. -/
def refresh_access_token (net : String → Except String TokenData)
    (now : Nat) (i : Integration) : Bool × Integration × List String :=
  if i.refresh_token = "" then (false, i, [])
  else
    let attempt : Except String (Bool × Integration × List String) :=
      if i.provider = "google" then _refresh_google_token net now i
      else if i.provider = "outlook" then _refresh_microsoft_token net now i
      else if i.provider = "zoom" then _refresh_zoom_token net now i
      else if i.provider = "apple" then _refresh_apple_token i
      else if i.provider = "microsoft_teams" then
        _refresh_microsoft_token net now i
      else if i.provider = "webex" then _refresh_webex_token net now i
      else Except.ok (false, i, [])
    match attempt with
    | Except.ok r => r
    | Except.error _ => (false, i, [])

/-- utils.py ensure_valid_token: no-op on an unexpired token, else the
refresh attempt. -/
def ensure_valid_token (net : String → Except String TokenData)
    (now : Nat) (i : Integration) : Bool × Integration × List String :=
  if ¬i.is_token_expired now then (true, i, [])
  else refresh_access_token net now i

/-- C5 counterexample: an Apple integration whose stored refresh token is
empty hits the missing-refresh-token guard first, so the refresh attempt
returns False rather than the claimed unconditional success. -/
theorem refresh_apple_empty_token_counterexample :
    (refresh_access_token (fun _ => Except.error "offline") 0
        ⟨"apple", "app-password", "", some 0⟩).1 = false ∧
    (ensure_valid_token (fun _ => Except.error "offline") 5
        ⟨"apple", "app-password", "", some 0⟩).1 = false := by
  constructor
  · rfl
  · rfl

/-- C5 (amended: the guaranteed no-op success holds for every Apple
integration whose stored refresh token is non-empty; an empty refresh token
is the hard failure shared by all providers): refresh_access_token on such
an integration returns success, calls no token endpoint, and leaves the
integration unchanged, and ensure_valid_token on an expired token does the
same. -/
theorem refresh_apple_noop_success (net : String → Except String TokenData)
    (now : Nat) (i : Integration)
    (hp : i.provider = "apple") (hr : i.refresh_token ≠ "") :
    refresh_access_token net now i = (true, i, []) ∧
    (i.is_token_expired now = true →
      ensure_valid_token net now i = (true, i, [])) := by
  have h1 : refresh_access_token net now i = (true, i, []) := by
    simp [refresh_access_token, hr, hp, _refresh_apple_token]
  exact ⟨h1, fun hexp => by simp [ensure_valid_token, hexp, h1]⟩

/-- Witness for C5: a concrete expired Apple integration with a non-empty
refresh token refreshes as a no-op success even with the network down. -/
theorem refresh_apple_noop_success_witness :
    refresh_access_token (fun _ => Except.error "down") 5
        ⟨"apple", "pw", "r", some 0⟩ =
      (true, ⟨"apple", "pw", "r", some 0⟩, []) ∧
    ensure_valid_token (fun _ => Except.error "down") 5
        ⟨"apple", "pw", "r", some 0⟩ =
      (true, ⟨"apple", "pw", "r", some 0⟩, []) := by
  have h := refresh_apple_noop_success (fun _ => Except.error "down") 5
    ⟨"apple", "pw", "r", some 0⟩ rfl (by decide)
  exact ⟨h.1, h.2 (by decide)⟩

/- ### Integration health report (utils.py create_integration_health_report).
The organizer identity and timestamp fields of the report are constant
bookkeeping and are dropped; the per-integration status dicts and the
overall_health mutation are kept. -/

structure CalendarIntegrationRec where
  provider : String
  is_active : Bool
  sync_enabled : Bool
  token_expired : Bool
  last_sync : Option String
  sync_errors : Nat
deriving DecidableEq

structure VideoIntegrationRec where
  provider : String
  is_active : Bool
  auto_generate_links : Bool
  token_expired : Bool
  api_calls_today : Nat
deriving DecidableEq

structure CalendarHealthStatus where
  provider : String
  is_active : Bool
  sync_enabled : Bool
  token_expired : Bool
  last_sync : Option String
  sync_errors : Nat
  health : String
deriving DecidableEq

structure VideoHealthStatus where
  provider : String
  is_active : Bool
  auto_generate_links : Bool
  token_expired : Bool
  api_calls_today : Nat
  health : String
deriving DecidableEq

/-- Per-calendar-integration status dict of
create_integration_health_report. -/
def mkCalendarHealthStatus (i : CalendarIntegrationRec) :
    CalendarHealthStatus :=
  { provider := i.provider
    is_active := i.is_active
    sync_enabled := i.sync_enabled
    token_expired := i.token_expired
    last_sync := i.last_sync
    sync_errors := i.sync_errors
    health :=
      if i.is_active ∧ ¬i.token_expired ∧ i.sync_errors < 3 then "healthy"
      else "unhealthy" }

/-- Per-video-integration status dict of create_integration_health_report. -/
def mkVideoHealthStatus (i : VideoIntegrationRec) : VideoHealthStatus :=
  { provider := i.provider
    is_active := i.is_active
    auto_generate_links := i.auto_generate_links
    token_expired := i.token_expired
    api_calls_today := i.api_calls_today
    health :=
      if i.is_active ∧ ¬i.token_expired then "healthy" else "unhealthy" }

structure HealthReport where
  calendar_integrations : List CalendarHealthStatus
  video_integrations : List VideoHealthStatus
  overall_health : String
deriving DecidableEq

/-- Overall-health accumulator: a status dict whose health is unhealthy
flips the report to degraded. -/
def degradeStep (overall : String) (health : String) : String :=
  if health = "unhealthy" then "degraded" else overall

/-- utils.py create_integration_health_report: builds both status lists,
starting from overall_health healthy and degrading on any unhealthy
integration. -/
def create_integration_health_report
    (cals : List CalendarIntegrationRec) (vids : List VideoIntegrationRec) :
    HealthReport :=
  let calStatuses := cals.map mkCalendarHealthStatus
  let overall1 := calStatuses.foldl (fun acc s => degradeStep acc s.health)
    "healthy"
  let vidStatuses := vids.map mkVideoHealthStatus
  let overall2 := vidStatuses.foldl (fun acc s => degradeStep acc s.health)
    overall1
  { calendar_integrations := calStatuses
    video_integrations := vidStatuses
    overall_health := overall2 }

lemma foldl_degrade_cal (l : List CalendarHealthStatus) (acc : String) :
    l.foldl (fun a s => degradeStep a s.health) acc =
      if l.any (fun s => s.health = "unhealthy") then "degraded" else acc := by
  induction l generalizing acc with
  | nil => simp
  | cons s ss ih =>
    rw [List.foldl_cons, ih]
    by_cases h : s.health = "unhealthy"
    · by_cases h2 : ss.any (fun s => s.health = "unhealthy")
      · simp [degradeStep, h, h2, List.any_cons]
      · simp [degradeStep, h, h2, List.any_cons]
    · by_cases h2 : ss.any (fun s => s.health = "unhealthy")
      · simp [degradeStep, h, h2, List.any_cons]
      · simp [degradeStep, h, h2, List.any_cons]

lemma foldl_degrade_vid (l : List VideoHealthStatus) (acc : String) :
    l.foldl (fun a s => degradeStep a s.health) acc =
      if l.any (fun s => s.health = "unhealthy") then "degraded" else acc := by
  induction l generalizing acc with
  | nil => simp
  | cons s ss ih =>
    rw [List.foldl_cons, ih]
    by_cases h : s.health = "unhealthy"
    · by_cases h2 : ss.any (fun s => s.health = "unhealthy")
      · simp [degradeStep, h, h2, List.any_cons]
      · simp [degradeStep, h, h2, List.any_cons]
    · by_cases h2 : ss.any (fun s => s.health = "unhealthy")
      · simp [degradeStep, h, h2, List.any_cons]
      · simp [degradeStep, h, h2, List.any_cons]

/-- C9: a calendar integration is reported healthy exactly when it is
active, its token is not expired and sync_errors < 3 (so 3 errors are
unhealthy and 2 healthy, all else equal); a video integration exactly when
active with an unexpired token; and overall_health is degraded exactly when
some listed integration is unhealthy, else healthy. -/
theorem create_integration_health_report_spec
    (cals : List CalendarIntegrationRec) (vids : List VideoIntegrationRec) :
    ((create_integration_health_report cals vids).calendar_integrations =
        cals.map mkCalendarHealthStatus ∧
      (create_integration_health_report cals vids).video_integrations =
        vids.map mkVideoHealthStatus) ∧
    (∀ i : CalendarIntegrationRec,
      ((mkCalendarHealthStatus i).health = "healthy" ↔
        (i.is_active ∧ ¬i.token_expired ∧ i.sync_errors < 3)) ∧
      ((mkCalendarHealthStatus i).health = "unhealthy" ↔
        ¬(i.is_active ∧ ¬i.token_expired ∧ i.sync_errors < 3))) ∧
    (∀ i : VideoIntegrationRec,
      ((mkVideoHealthStatus i).health = "healthy" ↔
        (i.is_active ∧ ¬i.token_expired)) ∧
      ((mkVideoHealthStatus i).health = "unhealthy" ↔
        ¬(i.is_active ∧ ¬i.token_expired))) ∧
    ((create_integration_health_report cals vids).overall_health =
        "degraded" ↔
      ((∃ s ∈ (create_integration_health_report cals vids).calendar_integrations,
          s.health = "unhealthy") ∨
        (∃ s ∈ (create_integration_health_report cals vids).video_integrations,
          s.health = "unhealthy"))) ∧
    ((create_integration_health_report cals vids).overall_health =
        "degraded" ∨
      (create_integration_health_report cals vids).overall_health =
        "healthy") := by
  have hcal : ∀ i : CalendarIntegrationRec,
      ((mkCalendarHealthStatus i).health = "healthy" ↔
        (i.is_active ∧ ¬i.token_expired ∧ i.sync_errors < 3)) ∧
      ((mkCalendarHealthStatus i).health = "unhealthy" ↔
        ¬(i.is_active ∧ ¬i.token_expired ∧ i.sync_errors < 3)) := by
    intro i
    by_cases h : (i.is_active ∧ ¬i.token_expired ∧ i.sync_errors < 3)
    · simp [mkCalendarHealthStatus, h]
    · simp [mkCalendarHealthStatus, h]
  have hvid : ∀ i : VideoIntegrationRec,
      ((mkVideoHealthStatus i).health = "healthy" ↔
        (i.is_active ∧ ¬i.token_expired)) ∧
      ((mkVideoHealthStatus i).health = "unhealthy" ↔
        ¬(i.is_active ∧ ¬i.token_expired)) := by
    intro i
    by_cases h : (i.is_active ∧ ¬i.token_expired)
    · simp [mkVideoHealthStatus, h]
    · simp [mkVideoHealthStatus, h]
  have hoverall :
      (create_integration_health_report cals vids).overall_health =
        if (cals.map mkCalendarHealthStatus).any
              (fun s => s.health = "unhealthy") ∨
            (vids.map mkVideoHealthStatus).any
              (fun s => s.health = "unhealthy")
        then "degraded" else "healthy" := by
    show ((vids.map mkVideoHealthStatus).foldl
        (fun acc s => degradeStep acc s.health)
        ((cals.map mkCalendarHealthStatus).foldl
          (fun acc s => degradeStep acc s.health) "healthy")) = _
    rw [foldl_degrade_cal, foldl_degrade_vid]
    by_cases h1 : (cals.map mkCalendarHealthStatus).any
        (fun s => s.health = "unhealthy")
    · by_cases h2 : (vids.map mkVideoHealthStatus).any
          (fun s => s.health = "unhealthy") <;> simp [h1, h2]
    · by_cases h2 : (vids.map mkVideoHealthStatus).any
          (fun s => s.health = "unhealthy") <;> simp [h1, h2]
  refine ⟨⟨rfl, rfl⟩, hcal, hvid, ?_, ?_⟩
  · rw [hoverall]
    simp only [List.any_eq_true, decide_eq_true_eq]
    split_ifs with h
    · exact iff_of_true (Eq.refl "degraded") h
    · exact iff_of_false (by decide) h
  · rw [hoverall]
    split_ifs with h
    · exact Or.inl rfl
    · exact Or.inr rfl

/- ### Idempotent deletes (apple_client.py delete_event,
microsoft_teams_client.py delete_meeting, webex_client.py delete_meeting).
The HTTP layer is embedded as an outcome: a status from a successful
urlopen, an HTTPError with its error text (for the Graph and Webex clients
the message already extracted from the JSON body), or a URLError. -/

inductive HttpOutcome where
  | ok (status : Nat) : HttpOutcome
  | httpError (code : Nat) (content : Str) : HttpOutcome
  | urlError (msg : Str) : HttpOutcome
deriving DecidableEq

/-- Python needle in haystack substring test. -/
def containsSub (n : Str) : Str → Bool
  | [] => n.isEmpty
  | c :: t => n.isPrefixOf (c :: t) || containsSub n t

/-- Python str.lower() restricted to its ASCII behaviour. -/
def pyLowerStr (s : Str) : Str := s.map Char.toLower

/-- The not-found test of the delete except-handlers:
404 in str(e) or not found in str(e).lower(). -/
def not_found_message (e : Str) : Bool :=
  containsSub "404".data e || containsSub "not found".data (pyLowerStr e)

/-- apple_client.py _make_caldav_request: a response passes through with its
status, an HTTPError raises CalDAV HTTP error code: content, a URLError
raises CalDAV connection error: msg. -/
def caldav_request (o : HttpOutcome) : Except Str Nat :=
  match o with
  | HttpOutcome.ok s => Except.ok s
  | HttpOutcome.httpError c content =>
      Except.error ("CalDAV HTTP error ".data ++ (Nat.repr c).data ++
        ": ".data ++ content)
  | HttpOutcome.urlError m =>
      Except.error ("CalDAV connection error: ".data ++ m)

/-- apple_client.py delete_event: nothing to delete is success; status 200,
204 or 404 is success; any other status raises, and the except-handler
returns True exactly when the exception text indicates not-found. -/
def apple_delete_event (external_calendar_event_id : Option String)
    (o : HttpOutcome) : Bool :=
  match external_calendar_event_id with
  | none => true
  | some _ =>
    match caldav_request o with
    | Except.ok s =>
        if s = 200 ∨ s = 204 ∨ s = 404 then true
        else not_found_message
          ("Unexpected response status: ".data ++ (Nat.repr s).data)
    | Except.error e => not_found_message e

/-- microsoft_teams_client.py _make_graph_request, error shapes only. -/
def graph_request (o : HttpOutcome) : Except Str Nat :=
  match o with
  | HttpOutcome.ok s => Except.ok s
  | HttpOutcome.httpError c msg =>
      Except.error ("Microsoft Graph API error ".data ++ (Nat.repr c).data ++
        ": ".data ++ msg)
  | HttpOutcome.urlError m =>
      Except.error ("Microsoft Graph API connection error: ".data ++ m)

/-- microsoft_teams_client.py delete_meeting; the meeting id only feeds the
request URL and the logs, so it is dropped here. -/
def teams_delete_meeting (o : HttpOutcome) : Bool :=
  match graph_request o with
  | Except.ok s =>
      if s = 200 ∨ s = 204 ∨ s = 404 then true
      else not_found_message
        ("Unexpected response status: ".data ++ (Nat.repr s).data)
  | Except.error e => not_found_message e

/-- webex_client.py _make_webex_request, error shapes only. -/
def webex_request (o : HttpOutcome) : Except Str Nat :=
  match o with
  | HttpOutcome.ok s => Except.ok s
  | HttpOutcome.httpError c msg =>
      Except.error ("Webex API error ".data ++ (Nat.repr c).data ++
        ": ".data ++ msg)
  | HttpOutcome.urlError m =>
      Except.error ("Webex API connection error: ".data ++ m)

/-- webex_client.py delete_meeting. -/
def webex_delete_meeting (o : HttpOutcome) : Bool :=
  match webex_request o with
  | Except.ok s =>
      if s = 200 ∨ s = 204 ∨ s = 404 then true
      else not_found_message
        ("Unexpected response status: ".data ++ (Nat.repr s).data)
  | Except.error e => not_found_message e

lemma containsSub_of_prefix (n m : Str) (h : n <+: m) :
    containsSub n m = true := by
  cases m with
  | nil =>
    obtain ⟨t, ht⟩ := h
    rcases List.append_eq_nil.1 ht with ⟨rfl, -⟩
    rfl
  | cons c t => simp [containsSub, List.isPrefixOf_iff_prefix.2 h]

lemma containsSub_mid (n pre suf : Str) :
    containsSub n (pre ++ (n ++ suf)) = true := by
  induction pre with
  | nil => exact containsSub_of_prefix _ _ (List.prefix_append _ _)
  | cons c cs ih => simp [containsSub, ih]

lemma containsSub_append_left (n pre t : Str) (h : containsSub n t = true) :
    containsSub n (pre ++ t) = true := by
  induction pre with
  | nil => exact h
  | cons c cs ih => simp [containsSub, ih]

/-- C8: every delete (Apple event, Teams meeting, Webex meeting) treats a
404 status — whether delivered as a response status or raised as an HTTP
error — and any error whose text indicates the resource was not found as
success, so deleting an already-deleted event returns success both times. -/
theorem delete_not_found_is_success :
    (∀ (id : String) (content : Str),
      apple_delete_event (some id) (HttpOutcome.ok 404) = true ∧
      apple_delete_event (some id)
        (HttpOutcome.httpError 404 content) = true) ∧
    (∀ content : Str,
      teams_delete_meeting (HttpOutcome.ok 404) = true ∧
      teams_delete_meeting (HttpOutcome.httpError 404 content) = true ∧
      webex_delete_meeting (HttpOutcome.ok 404) = true ∧
      webex_delete_meeting (HttpOutcome.httpError 404 content) = true) ∧
    (∀ msg : Str, containsSub "not found".data (pyLowerStr msg) = true →
      apple_delete_event (some "uid") (HttpOutcome.urlError msg) = true ∧
      teams_delete_meeting (HttpOutcome.urlError msg) = true ∧
      webex_delete_meeting (HttpOutcome.urlError msg) = true) ∧
    (∀ (id : String) (content : Str),
      apple_delete_event (some id) (HttpOutcome.ok 204) = true ∧
      apple_delete_event (some id)
        (HttpOutcome.httpError 404 content) = true ∧
      teams_delete_meeting (HttpOutcome.ok 204) = true ∧
      teams_delete_meeting (HttpOutcome.httpError 404 content) = true) := by
  have happle : ∀ content : Str,
      not_found_message ("CalDAV HTTP error ".data ++ (Nat.repr 404).data ++
        ": ".data ++ content) = true := by
    intro content
    have : containsSub "404".data ("CalDAV HTTP error ".data ++
        ("404".data ++ (": ".data ++ content))) = true :=
      containsSub_mid _ _ _
    simp only [not_found_message, Bool.or_eq_true]
    exact Or.inl (by simpa [List.append_assoc] using this)
  have hteams : ∀ content : Str,
      not_found_message ("Microsoft Graph API error ".data ++
        (Nat.repr 404).data ++ ": ".data ++ content) = true := by
    intro content
    have : containsSub "404".data ("Microsoft Graph API error ".data ++
        ("404".data ++ (": ".data ++ content))) = true :=
      containsSub_mid _ _ _
    simp only [not_found_message, Bool.or_eq_true]
    exact Or.inl (by simpa [List.append_assoc] using this)
  have hwebex : ∀ content : Str,
      not_found_message ("Webex API error ".data ++
        (Nat.repr 404).data ++ ": ".data ++ content) = true := by
    intro content
    have : containsSub "404".data ("Webex API error ".data ++
        ("404".data ++ (": ".data ++ content))) = true :=
      containsSub_mid _ _ _
    simp only [not_found_message, Bool.or_eq_true]
    exact Or.inl (by simpa [List.append_assoc] using this)
  have hnf : ∀ (pre msg : Str),
      containsSub "not found".data (pyLowerStr msg) = true →
      not_found_message (pre ++ msg) = true := by
    intro pre msg h
    simp only [not_found_message, Bool.or_eq_true]
    refine Or.inr ?_
    rw [pyLowerStr, List.map_append]
    exact containsSub_append_left _ _ _ h
  refine ⟨?_, ?_, ?_, ?_⟩
  · intro id content
    exact ⟨rfl, happle content⟩
  · intro content
    exact ⟨rfl, hteams content, rfl, hwebex content⟩
  · intro msg h
    exact ⟨hnf "CalDAV connection error: ".data msg h,
      hnf "Microsoft Graph API connection error: ".data msg h,
      hnf "Webex API connection error: ".data msg h⟩
  · intro id content
    exact ⟨rfl, happle content, rfl, hteams content⟩

/-- Witness for C8: concrete already-deleted scenarios succeed, including a
connection error whose text says the resource was not found. -/
theorem delete_not_found_is_success_witness :
    apple_delete_event (some "booking-1") (HttpOutcome.ok 404) = true ∧
    apple_delete_event (some "booking-1")
      (HttpOutcome.httpError 404 "gone".data) = true ∧
    teams_delete_meeting
      (HttpOutcome.urlError "meeting not found".data) = true :=
  ⟨(delete_not_found_is_success.1 "booking-1" "gone".data).1,
   (delete_not_found_is_success.1 "booking-1" "gone".data).2,
   (delete_not_found_is_success.2.2.1 "meeting not found".data
      (by decide)).2.1⟩

/- ### Webhook signature validation
(utils.py validate_webhook_signature_multiple_formats).

utils.py imports hashlib and hmac only inside validate_webhook_signature
(lines 513-514), where they bind function-local names; the module namespace
never gains either name.  validate_webhook_signature_multiple_formats
dereferences hashlib while building its signature_formats list (lines
579-610), and that list construction stands before the try block (line
612), so every call that passes the missing-secret-or-header guard raises
NameError to the caller instead of returning a result dict.  The embedding
returns the guard result or that raised exception. -/

structure SigValidationResult where
  valid : Bool
  format_detected : Option String
  error : Option String
deriving DecidableEq

/-- utils.py validate_webhook_signature_multiple_formats as written: the
guard for a missing secret or header returns an invalid result without
touching any hash machinery; any other call dereferences the absent
module-level hashlib name and raises. -/
def validate_webhook_signature_multiple_formats
    (payload signature_header secret : String) :
    Except String SigValidationResult :=
  if secret = "" ∨ signature_header = "" then
    Except.ok
      { valid := false
        format_detected := none
        error := some "Missing secret or signature header" }
  else
    Except.error "NameError: name hashlib is not defined"

/-- C2 (code bug): with a non-empty secret and a well-formed github-style
header over any payload, the function raises NameError instead of
returning a validation result, while a missing secret still produces the
immediate invalid result the claim describes. -/
theorem validate_webhook_multiple_formats_raises :
    validate_webhook_signature_multiple_formats "{}"
        "sha256=aaaaaaaaaaaaaaaaaaaaaaaaaaaaaaaaaaaaaaaaaaaaaaaaaaaaaaaaaaaaaaaa"
        "secret" =
      Except.error "NameError: name hashlib is not defined" ∧
    validate_webhook_signature_multiple_formats "{}"
        "sha256=aaaaaaaaaaaaaaaaaaaaaaaaaaaaaaaaaaaaaaaaaaaaaaaaaaaaaaaaaaaaaaaa"
        "" =
      Except.ok
        { valid := false
          format_detected := none
          error := some "Missing secret or signature header" } := by
  exact ⟨rfl, rfl⟩

/- ### iCalendar datetimes (utils.py _parse_ical_datetime,
apple_client.py AppleCalendarClient._parse_ical_datetime and
_create_ical_event).  A datetime is its calendar fields; validity is the
range check datetime.strptime performs.  strftime/strptime are embedded at
the three fixed-width formats the source uses.  The organizer timezone
(ZoneInfo of profile.timezone_name) is modelled as a fixed offset in
minutes; the conversion to UTC goes through days-from-civil arithmetic. -/

structure DateTime where
  year : Nat
  month : Nat
  day : Nat
  hour : Nat
  minute : Nat
  second : Nat
deriving DecidableEq

def isLeapYear (y : Nat) : Bool :=
  decide (y % 4 = 0 ∧ (¬y % 100 = 0 ∨ y % 400 = 0))

def daysInMonth (y m : Nat) : Nat :=
  if m = 2 then (if isLeapYear y then 29 else 28)
  else if m = 4 ∨ m = 6 ∨ m = 9 ∨ m = 11 then 30
  else 31

/-- Field ranges accepted by datetime.strptime / the datetime constructor. -/
def ValidDateTime (dt : DateTime) : Prop :=
  1 ≤ dt.year ∧ dt.year ≤ 9999 ∧ 1 ≤ dt.month ∧ dt.month ≤ 12 ∧
    1 ≤ dt.day ∧ dt.day ≤ daysInMonth dt.year dt.month ∧
    dt.hour ≤ 23 ∧ dt.minute ≤ 59 ∧ dt.second ≤ 59

instance (dt : DateTime) : Decidable (ValidDateTime dt) := by
  unfold ValidDateTime
  infer_instance

/-- Digit character of n for n below ten, 9 as catch-all. -/
def natDigit (n : Nat) : Char :=
  if n = 0 then '0' else if n = 1 then '1' else if n = 2 then '2'
  else if n = 3 then '3' else if n = 4 then '4' else if n = 5 then '5'
  else if n = 6 then '6' else if n = 7 then '7' else if n = 8 then '8'
  else '9'

/-- Numeric value of a digit character. -/
def dv (c : Char) : Nat := c.toNat - 48

lemma natDigit_isDigit (n : Nat) : (natDigit n).isDigit = true := by
  unfold natDigit
  split_ifs <;> decide

lemma dv_natDigit (n : Nat) (h : n ≤ 9) : dv (natDigit n) = n := by
  interval_cases n <;> decide

lemma natDigit_ne_Z (n : Nat) : ¬natDigit n = 'Z' := by
  unfold natDigit
  split_ifs <;> decide

lemma natDigit_ne_T (n : Nat) : ¬natDigit n = 'T' := by
  unfold natDigit
  split_ifs <;> decide

lemma T_ne_natDigit (n : Nat) : ¬('T' = natDigit n) := fun h =>
  natDigit_ne_T n h.symm

/-- Either some datetime with the given fields or the ValueError of the
datetime constructor. -/
def mkValidDateTime (y mo d h mi se : Nat) : Option DateTime :=
  if ValidDateTime ⟨y, mo, d, h, mi, se⟩ then some ⟨y, mo, d, h, mi, se⟩
  else none

/-- strftime %Y%m%dT%H%M%SZ on a datetime already in UTC. -/
def fmtBasicZ (dt : DateTime) : Str :=
  [natDigit (dt.year / 1000 % 10), natDigit (dt.year / 100 % 10),
   natDigit (dt.year / 10 % 10), natDigit (dt.year % 10),
   natDigit (dt.month / 10 % 10), natDigit (dt.month % 10),
   natDigit (dt.day / 10 % 10), natDigit (dt.day % 10), 'T',
   natDigit (dt.hour / 10 % 10), natDigit (dt.hour % 10),
   natDigit (dt.minute / 10 % 10), natDigit (dt.minute % 10),
   natDigit (dt.second / 10 % 10), natDigit (dt.second % 10), 'Z']

/-- The bare form YYYYMMDDTHHMMSS of a datetime. -/
def fmtBasic15 (dt : DateTime) : Str :=
  [natDigit (dt.year / 1000 % 10), natDigit (dt.year / 100 % 10),
   natDigit (dt.year / 10 % 10), natDigit (dt.year % 10),
   natDigit (dt.month / 10 % 10), natDigit (dt.month % 10),
   natDigit (dt.day / 10 % 10), natDigit (dt.day % 10), 'T',
   natDigit (dt.hour / 10 % 10), natDigit (dt.hour % 10),
   natDigit (dt.minute / 10 % 10), natDigit (dt.minute % 10),
   natDigit (dt.second / 10 % 10), natDigit (dt.second % 10)]

/-- The date-only form YYYYMMDD. -/
def fmtDate8 (y mo d : Nat) : Str :=
  [natDigit (y / 1000 % 10), natDigit (y / 100 % 10),
   natDigit (y / 10 % 10), natDigit (y % 10),
   natDigit (mo / 10 % 10), natDigit (mo % 10),
   natDigit (d / 10 % 10), natDigit (d % 10)]

/-- strptime %Y%m%dT%H%M%SZ at its canonical fixed width. -/
def parse_dt_z16 (s : Str) : Option DateTime :=
  match s with
  | [y1, y2, y3, y4, a1, a2, b1, b2, t, h1, h2, i1, i2, e1, e2, z] =>
    if t = 'T' ∧ z = 'Z' ∧ y1.isDigit ∧ y2.isDigit ∧ y3.isDigit ∧
        y4.isDigit ∧ a1.isDigit ∧ a2.isDigit ∧ b1.isDigit ∧ b2.isDigit ∧
        h1.isDigit ∧ h2.isDigit ∧ i1.isDigit ∧ i2.isDigit ∧ e1.isDigit ∧
        e2.isDigit then
      mkValidDateTime
        (dv y1 * 1000 + dv y2 * 100 + dv y3 * 10 + dv y4)
        (dv a1 * 10 + dv a2) (dv b1 * 10 + dv b2)
        (dv h1 * 10 + dv h2) (dv i1 * 10 + dv i2) (dv e1 * 10 + dv e2)
    else none
  | _ => none

/-- strptime %Y%m%dT%H%M%S at its canonical fixed width. -/
def parse_dt_basic15 (s : Str) : Option DateTime :=
  match s with
  | [y1, y2, y3, y4, a1, a2, b1, b2, t, h1, h2, i1, i2, e1, e2] =>
    if t = 'T' ∧ y1.isDigit ∧ y2.isDigit ∧ y3.isDigit ∧ y4.isDigit ∧
        a1.isDigit ∧ a2.isDigit ∧ b1.isDigit ∧ b2.isDigit ∧ h1.isDigit ∧
        h2.isDigit ∧ i1.isDigit ∧ i2.isDigit ∧ e1.isDigit ∧ e2.isDigit then
      mkValidDateTime
        (dv y1 * 1000 + dv y2 * 100 + dv y3 * 10 + dv y4)
        (dv a1 * 10 + dv a2) (dv b1 * 10 + dv b2)
        (dv h1 * 10 + dv h2) (dv i1 * 10 + dv i2) (dv e1 * 10 + dv e2)
    else none
  | _ => none

/-- strptime %Y%m%d at its canonical fixed width, combined with midnight. -/
def parse_date8 (s : Str) : Option DateTime :=
  match s with
  | [y1, y2, y3, y4, a1, a2, b1, b2] =>
    if y1.isDigit ∧ y2.isDigit ∧ y3.isDigit ∧ y4.isDigit ∧ a1.isDigit ∧
        a2.isDigit ∧ b1.isDigit ∧ b2.isDigit then
      mkValidDateTime
        (dv y1 * 1000 + dv y2 * 100 + dv y3 * 10 + dv y4)
        (dv a1 * 10 + dv a2) (dv b1 * 10 + dv b2) 0 0 0
    else none
  | _ => none

/-- utils.py _parse_ical_datetime: trailing Z means UTC, a bare datetime is
assumed UTC (the source comment says assume UTC for simplicity), a
date-only string is midnight UTC; any parse failure is caught as None. -/
def _parse_ical_datetime (s : Str) : Option DateTime :=
  if s.getLast? = some 'Z' then parse_dt_z16 s
  else if 'T' ∈ s then parse_dt_basic15 s
  else parse_date8 s

/-- Days since 1970-01-01 of a civil date (Hinnant days-from-civil with
C-style truncating division, which Int division matches). -/
def daysFromCivil (y m d : Int) : Int :=
  let y2 := if m ≤ 2 then y - 1 else y
  let era := (if 0 ≤ y2 then y2 else y2 - 399) / 400
  let yoe := y2 - era * 400
  let mp := (m + 9) % 12
  let doy := (153 * mp + 2) / 5 + d - 1
  let doe := yoe * 365 + yoe / 4 - yoe / 100 + doy
  era * 146097 + doe - 719468

/-- Civil date of a days-since-1970 count (Hinnant civil-from-days). -/
def civilFromDays (z0 : Int) : Int × Int × Int :=
  let z := z0 + 719468
  let era := (if 0 ≤ z then z else z - 146096) / 146097
  let doe := z - era * 146097
  let yoe := (doe - doe / 1460 + doe / 36524 - doe / 146096) / 365
  let y := yoe + era * 400
  let doy := doe - (365 * yoe + yoe / 4 - yoe / 100)
  let mp := (5 * doy + 2) / 153
  let d := doy - (153 * mp + 2) / 5 + 1
  let m := if mp < 10 then mp + 3 else mp - 9
  (if m ≤ 2 then y + 1 else y, m, d)

/-- Seconds since the epoch of a datetime taken as UTC. -/
def dtToEpochSec (dt : DateTime) : Int :=
  daysFromCivil dt.year dt.month dt.day * 86400 +
    dt.hour * 3600 + dt.minute * 60 + dt.second

/-- Datetime of an epoch-second count (floor division for the day split). -/
def dtOfEpochSec (t : Int) : DateTime :=
  let days := Int.fdiv t 86400
  let sod := (Int.fmod t 86400).toNat
  let c := civilFromDays days
  ⟨c.1.toNat, c.2.1.toNat, c.2.2.toNat, sod / 3600, sod / 60 % 60, sod % 60⟩

/-- datetime.replace(tzinfo=organizer zone).astimezone(utc) for a
fixed-offset zone: subtract the offset; outside the datetime range the
astimezone call raises OverflowError, caught as None by the caller. -/
def utcOfLocal (offsetMinutes : Int) (dt : DateTime) : Option DateTime :=
  let t := dtToEpochSec dt - offsetMinutes * 60
  if dtToEpochSec ⟨1, 1, 1, 0, 0, 0⟩ ≤ t ∧
      t ≤ dtToEpochSec ⟨9999, 12, 31, 23, 59, 59⟩ then
    some (dtOfEpochSec t)
  else none

/-- apple_client.py AppleCalendarClient._parse_ical_datetime: trailing Z is
UTC; a bare datetime is interpreted in the organizer timezone and converted
to UTC; a date-only string is midnight UTC. -/
def apple_parse_ical_datetime (offsetMinutes : Int) (s : Str) :
    Option DateTime :=
  if s.getLast? = some 'Z' then parse_dt_z16 s
  else if 'T' ∈ s then
    match parse_dt_basic15 s with
    | some dt => utcOfLocal offsetMinutes dt
    | none => none
  else parse_date8 s

lemma mod10_le_9 (k : Nat) : k % 10 ≤ 9 :=
  Nat.le_of_lt_succ (Nat.mod_lt _ (by norm_num))

lemma daysInMonth_le_31 (y m : Nat) : daysInMonth y m ≤ 31 := by
  unfold daysInMonth
  split_ifs <;> omega

lemma parse_dt_z16_fmt (dt : DateTime) (h : ValidDateTime dt) :
    parse_dt_z16 (fmtBasicZ dt) = some dt := by
  have hv := h
  simp only [ValidDateTime] at hv
  obtain ⟨h1, h2, h3, h4, h5, h6, h7, h8, h9⟩ := hv
  simp only [fmtBasicZ, parse_dt_z16]
  rw [if_pos (by simp [natDigit_isDigit])]
  simp only [dv_natDigit _ (mod10_le_9 _)]
  have hy : dt.year / 1000 % 10 * 1000 + dt.year / 100 % 10 * 100 +
      dt.year / 10 % 10 * 10 + dt.year % 10 = dt.year := by omega
  have hmo : dt.month / 10 % 10 * 10 + dt.month % 10 = dt.month := by omega
  have hd31 : dt.day ≤ 31 := le_trans h6 (daysInMonth_le_31 _ _)
  have hd : dt.day / 10 % 10 * 10 + dt.day % 10 = dt.day := by omega
  have hhh : dt.hour / 10 % 10 * 10 + dt.hour % 10 = dt.hour := by omega
  have hmi : dt.minute / 10 % 10 * 10 + dt.minute % 10 = dt.minute := by
    omega
  have hse : dt.second / 10 % 10 * 10 + dt.second % 10 = dt.second := by
    omega
  rw [hy, hmo, hd, hhh, hmi, hse, mkValidDateTime, if_pos h]

lemma parse_dt_basic15_fmt (dt : DateTime) (h : ValidDateTime dt) :
    parse_dt_basic15 (fmtBasic15 dt) = some dt := by
  have hv := h
  simp only [ValidDateTime] at hv
  obtain ⟨h1, h2, h3, h4, h5, h6, h7, h8, h9⟩ := hv
  simp only [fmtBasic15, parse_dt_basic15]
  rw [if_pos (by simp [natDigit_isDigit])]
  simp only [dv_natDigit _ (mod10_le_9 _)]
  have hy : dt.year / 1000 % 10 * 1000 + dt.year / 100 % 10 * 100 +
      dt.year / 10 % 10 * 10 + dt.year % 10 = dt.year := by omega
  have hmo : dt.month / 10 % 10 * 10 + dt.month % 10 = dt.month := by omega
  have hd31 : dt.day ≤ 31 := le_trans h6 (daysInMonth_le_31 _ _)
  have hd : dt.day / 10 % 10 * 10 + dt.day % 10 = dt.day := by omega
  have hhh : dt.hour / 10 % 10 * 10 + dt.hour % 10 = dt.hour := by omega
  have hmi : dt.minute / 10 % 10 * 10 + dt.minute % 10 = dt.minute := by
    omega
  have hse : dt.second / 10 % 10 * 10 + dt.second % 10 = dt.second := by
    omega
  rw [hy, hmo, hd, hhh, hmi, hse, mkValidDateTime, if_pos h]

lemma parse_date8_fmt (y mo d : Nat)
    (h : ValidDateTime ⟨y, mo, d, 0, 0, 0⟩) :
    parse_date8 (fmtDate8 y mo d) = some ⟨y, mo, d, 0, 0, 0⟩ := by
  have hv := h
  simp only [ValidDateTime] at hv
  obtain ⟨h1, h2, h3, h4, h5, h6, -, -, -⟩ := hv
  simp only [fmtDate8, parse_date8]
  rw [if_pos (by simp [natDigit_isDigit])]
  simp only [dv_natDigit _ (mod10_le_9 _)]
  have hy : y / 1000 % 10 * 1000 + y / 100 % 10 * 100 + y / 10 % 10 * 10 +
      y % 10 = y := by omega
  have hmo : mo / 10 % 10 * 10 + mo % 10 = mo := by omega
  have hd31 : d ≤ 31 := le_trans h6 (daysInMonth_le_31 _ _)
  have hd : d / 10 % 10 * 10 + d % 10 = d := by omega
  rw [hy, hmo, hd, mkValidDateTime, if_pos h]

lemma getLast?_fmtBasicZ (dt : DateTime) :
    (fmtBasicZ dt).getLast? = some 'Z' := rfl

lemma getLast?_fmtBasic15 (dt : DateTime) :
    ¬(fmtBasic15 dt).getLast? = some 'Z' := by
  simp only [fmtBasic15]
  intro h
  rw [show ([natDigit (dt.year / 1000 % 10), natDigit (dt.year / 100 % 10),
    natDigit (dt.year / 10 % 10), natDigit (dt.year % 10),
    natDigit (dt.month / 10 % 10), natDigit (dt.month % 10),
    natDigit (dt.day / 10 % 10), natDigit (dt.day % 10), 'T',
    natDigit (dt.hour / 10 % 10), natDigit (dt.hour % 10),
    natDigit (dt.minute / 10 % 10), natDigit (dt.minute % 10),
    natDigit (dt.second / 10 % 10), natDigit (dt.second % 10)] :
      Str).getLast? = some (natDigit (dt.second % 10)) from rfl] at h
  exact natDigit_ne_Z _ (Option.some.inj h)

lemma mem_T_fmtBasic15 (dt : DateTime) : 'T' ∈ fmtBasic15 dt := by
  simp [fmtBasic15]

lemma getLast?_fmtDate8 (y mo d : Nat) :
    ¬(fmtDate8 y mo d).getLast? = some 'Z' := by
  intro h
  rw [show (fmtDate8 y mo d).getLast? = some (natDigit (d % 10)) from rfl]
    at h
  exact natDigit_ne_Z _ (Option.some.inj h)

lemma not_mem_T_fmtDate8 (y mo d : Nat) : ¬('T' ∈ fmtDate8 y mo d) := by
  simp [fmtDate8, T_ne_natDigit]

/-- C7 counterexample: on the bare form the module-level utils parser keeps
the instant as-is (the source comments assume UTC for simplicity), so for
an organizer configured one hour east of UTC it does not return the
converted instant the claim requires of both parsers; the client method
does convert. -/
theorem parse_ical_datetime_bare_counterexample :
    _parse_ical_datetime "20240101T120000".data =
      some ⟨2024, 1, 1, 12, 0, 0⟩ ∧
    apple_parse_ical_datetime 60 "20240101T120000".data =
      some ⟨2024, 1, 1, 11, 0, 0⟩ ∧
    some (⟨2024, 1, 1, 12, 0, 0⟩ : DateTime) ≠
      some (⟨2024, 1, 1, 11, 0, 0⟩ : DateTime) := by
  refine ⟨by decide, by decide, by decide⟩

/-- C7 (amended: the trailing-Z and date-only behaviours hold for both
parsers, and the bare form is interpreted in the organizer timezone only by
the AppleCalendarClient method — the module-level utils parser treats a
bare datetime as already UTC): canonical strings of the three forms parse
to the exact instant, midnight, and the respective bare-form semantics. -/
theorem parse_ical_datetime_three_forms (off : Int) (dt : DateTime)
    (y mo d : Nat) (h : ValidDateTime dt)
    (hd : ValidDateTime ⟨y, mo, d, 0, 0, 0⟩) :
    (_parse_ical_datetime (fmtBasicZ dt) = some dt ∧
      apple_parse_ical_datetime off (fmtBasicZ dt) = some dt) ∧
    (_parse_ical_datetime (fmtDate8 y mo d) = some ⟨y, mo, d, 0, 0, 0⟩ ∧
      apple_parse_ical_datetime off (fmtDate8 y mo d) =
        some ⟨y, mo, d, 0, 0, 0⟩) ∧
    (_parse_ical_datetime (fmtBasic15 dt) = some dt ∧
      apple_parse_ical_datetime off (fmtBasic15 dt) = utcOfLocal off dt) := by
  refine ⟨⟨?_, ?_⟩, ⟨?_, ?_⟩, ⟨?_, ?_⟩⟩
  · rw [_parse_ical_datetime, if_pos (getLast?_fmtBasicZ dt)]
    exact parse_dt_z16_fmt dt h
  · rw [apple_parse_ical_datetime, if_pos (getLast?_fmtBasicZ dt)]
    exact parse_dt_z16_fmt dt h
  · rw [_parse_ical_datetime, if_neg (getLast?_fmtDate8 y mo d),
      if_neg (not_mem_T_fmtDate8 y mo d)]
    exact parse_date8_fmt y mo d hd
  · rw [apple_parse_ical_datetime, if_neg (getLast?_fmtDate8 y mo d),
      if_neg (not_mem_T_fmtDate8 y mo d)]
    exact parse_date8_fmt y mo d hd
  · rw [_parse_ical_datetime, if_neg (getLast?_fmtBasic15 dt),
      if_pos (mem_T_fmtBasic15 dt)]
    exact parse_dt_basic15_fmt dt h
  · rw [apple_parse_ical_datetime, if_neg (getLast?_fmtBasic15 dt),
      if_pos (mem_T_fmtBasic15 dt), parse_dt_basic15_fmt dt h]

/-- Witness for C7: the three canonical forms at a concrete instant and a
concrete one-hour-east organizer offset. -/
theorem parse_ical_datetime_three_forms_witness :
    _parse_ical_datetime (fmtBasicZ ⟨2024, 5, 1, 10, 0, 0⟩) =
      some ⟨2024, 5, 1, 10, 0, 0⟩ ∧
    _parse_ical_datetime (fmtDate8 2024 5 1) = some ⟨2024, 5, 1, 0, 0, 0⟩ ∧
    apple_parse_ical_datetime 60 (fmtBasic15 ⟨2024, 5, 1, 10, 0, 0⟩) =
      utcOfLocal 60 ⟨2024, 5, 1, 10, 0, 0⟩ :=
  ⟨(parse_ical_datetime_three_forms 60 ⟨2024, 5, 1, 10, 0, 0⟩ 2024 5 1
      (by decide) (by decide)).1.1,
   (parse_ical_datetime_three_forms 60 ⟨2024, 5, 1, 10, 0, 0⟩ 2024 5 1
      (by decide) (by decide)).2.1.1,
   (parse_ical_datetime_three_forms 60 ⟨2024, 5, 1, 10, 0, 0⟩ 2024 5 1
      (by decide) (by decide)).2.2.2⟩

/- ### iCalendar event parsing (utils.py parse_apple_calendar_event,
apple_client.py _parse_ical_event and _parse_caldav_events_response). -/

/-- Python str.split on a newline, keeping empty pieces. -/
def splitNl : Str → List Str
  | [] => [[]]
  | c :: cs =>
    match splitNl cs with
    | [] => [[c]]
    | r :: rs => if c = '\n' then [] :: r :: rs else (c :: r) :: rs

/-- CRLF join used by _create_ical_event. -/
def joinCRLF : List Str → Str
  | [] => []
  | [l] => l
  | l :: ls => l ++ '\r' :: '\n' :: joinCRLF ls

/-- Property-collection loop shared by both event parsers: strip each line,
wait for BEGIN:VEVENT, stop at END:VEVENT, split each property line at its
first colon, drop any ;PARAM suffix of the name, store the binding with the
latest assignment winning (bindings are prepended, lookups take the first
hit). -/
def collectProps : List Str → Bool → List (Str × Str) → List (Str × Str)
  | [], _, acc => acc
  | l :: ls, inEvent, acc =>
    let line := pyStrip l
    if line = "BEGIN:VEVENT".data then collectProps ls true acc
    else if line = "END:VEVENT".data then acc
    else if ¬inEvent then collectProps ls inEvent acc
    else if ':' ∈ line then
      let rawProp := line.takeWhile (fun c => ¬c = ':')
      let value := (line.dropWhile (fun c => ¬c = ':')).tail
      let prop := if ';' ∈ rawProp then
          rawProp.takeWhile (fun c => ¬c = ';')
        else rawProp
      collectProps ls inEvent ((prop, value) :: acc)
    else collectProps ls inEvent acc

/-- Python dict lookup over the collected bindings. -/
def dictFind (props : List (Str × Str)) (k : Str) : Option Str :=
  (props.find? (fun e => decide (e.1 = k))).map (fun e => e.2)

/-- Canonical internal event record; the updated field of the source dict
is timezone.now() bookkeeping and is dropped. -/
structure NormalizedEvent where
  external_id : Str
  summary : Str
  start_datetime : DateTime
  end_datetime : DateTime
  status : String
  transparency : String
deriving DecidableEq

/-- apple_client.py _parse_ical_event: requires UID, DTSTART and DTEND,
parses both datetimes with the client datetime parser, drops cancelled or
transparent events, else normalizes. -/
def apple_parse_ical_event (off : Int) (ical : Str) :
    Option NormalizedEvent :=
  let props := collectProps (splitNl (pyStrip ical)) false []
  match dictFind props "UID".data, dictFind props "DTSTART".data,
      dictFind props "DTEND".data with
  | some uid, some dtstart, some dtend =>
    match apple_parse_ical_datetime off dtstart,
        apple_parse_ical_datetime off dtend with
    | some sdt, some edt =>
      let status := (dictFind props "STATUS".data).getD "CONFIRMED".data
      let transp := (dictFind props "TRANSP".data).getD "OPAQUE".data
      if status = "CANCELLED".data ∨ transp = "TRANSPARENT".data then none
      else
        some { external_id := uid
               summary := (dictFind props "SUMMARY".data).getD "Busy".data
               start_datetime := sdt
               end_datetime := edt
               status := "confirmed"
               transparency := "opaque" }
    | _, _ => none
  | _, _, _ => none

/-- utils.py parse_apple_calendar_event: the module-level twin of
_parse_ical_event, using the module-level datetime parser and recomputing
transparency from TRANSP. -/
def parse_apple_calendar_event (ical : Str) : Option NormalizedEvent :=
  let props := collectProps (splitNl (pyStrip ical)) false []
  match dictFind props "UID".data, dictFind props "DTSTART".data,
      dictFind props "DTEND".data with
  | some uid, some dtstart, some dtend =>
    match _parse_ical_datetime dtstart, _parse_ical_datetime dtend with
    | some sdt, some edt =>
      let status := (dictFind props "STATUS".data).getD "CONFIRMED".data
      let transp := (dictFind props "TRANSP".data).getD "OPAQUE".data
      if status = "CANCELLED".data ∨ transp = "TRANSPARENT".data then none
      else
        some { external_id := uid
               summary := (dictFind props "SUMMARY".data).getD "Busy".data
               start_datetime := sdt
               end_datetime := edt
               status := "confirmed"
               transparency :=
                 if ¬transp = "TRANSPARENT".data then "opaque"
                 else "transparent" }
    | _, _ => none
  | _, _, _ => none

/-- apple_client.py _parse_caldav_events_response with the XML layer
abstracted to the list of calendar-data text blocks found in the REPORT
response: a response element with a missing or empty block is skipped, each
remaining block is parsed, and only non-null events are collected. -/
def parse_caldav_events_response (off : Int) (texts : List Str) :
    List NormalizedEvent :=
  texts.filterMap fun t =>
    if t.isEmpty then none else apple_parse_ical_event off t

/-- C6: a VEVENT block whose collected properties miss UID, DTSTART or
DTEND parses to null in both event parsers (the Python try/except turns
any such miss into a silent None), and in a multi-event CalDAV REPORT
response a null block leaves the sibling events parsed and collected. -/
theorem malformed_vevent_skipped (off : Int) :
    (∀ ical : Str,
      (dictFind (collectProps (splitNl (pyStrip ical)) false [])
          "UID".data = none ∨
        dictFind (collectProps (splitNl (pyStrip ical)) false [])
          "DTSTART".data = none ∨
        dictFind (collectProps (splitNl (pyStrip ical)) false [])
          "DTEND".data = none) →
      parse_apple_calendar_event ical = none ∧
      apple_parse_ical_event off ical = none) ∧
    (∀ (xs ys : List Str) (bad : Str),
      apple_parse_ical_event off bad = none →
      parse_caldav_events_response off (xs ++ bad :: ys) =
        parse_caldav_events_response off xs ++
          parse_caldav_events_response off ys) := by
  constructor
  · intro ical h
    constructor
    · simp only [parse_apple_calendar_event]
      split
      · exfalso
        rcases h with h | h | h <;> simp_all
      · rfl
    · simp only [apple_parse_ical_event]
      split
      · exfalso
        rcases h with h | h | h <;> simp_all
      · rfl
  · intro xs ys bad h
    by_cases hb : bad = []
    · subst hb
      simp [parse_caldav_events_response, List.filterMap_append,
        List.filterMap_cons]
    · simp [parse_caldav_events_response, List.filterMap_append,
        List.filterMap_cons, hb, h]

/-- Witness for C6: a VEVENT block with DTSTART and DTEND but no UID parses
to null, and as the middle of three REPORT blocks it leaves the two good
siblings collected. -/
theorem malformed_vevent_skipped_witness :
    parse_apple_calendar_event
      "BEGIN:VEVENT\nDTSTART:20240101T100000Z\nDTEND:20240101T110000Z\nEND:VEVENT".data
      = none ∧
    parse_caldav_events_response 0
      ["BEGIN:VEVENT\nUID:a\nDTSTART:20240101T100000Z\nDTEND:20240101T110000Z\nEND:VEVENT".data,
       "BEGIN:VEVENT\nDTSTART:20240101T100000Z\nDTEND:20240101T110000Z\nEND:VEVENT".data,
       "BEGIN:VEVENT\nUID:b\nDTSTART:20240201T100000Z\nDTEND:20240201T110000Z\nEND:VEVENT".data] =
      parse_caldav_events_response 0
        ["BEGIN:VEVENT\nUID:a\nDTSTART:20240101T100000Z\nDTEND:20240101T110000Z\nEND:VEVENT".data] ++
        parse_caldav_events_response 0
          ["BEGIN:VEVENT\nUID:b\nDTSTART:20240201T100000Z\nDTEND:20240201T110000Z\nEND:VEVENT".data] :=
  ⟨((malformed_vevent_skipped 0).1
      "BEGIN:VEVENT\nDTSTART:20240101T100000Z\nDTEND:20240101T110000Z\nEND:VEVENT".data
      (Or.inl (by decide))).1,
   (malformed_vevent_skipped 0).2
      ["BEGIN:VEVENT\nUID:a\nDTSTART:20240101T100000Z\nDTEND:20240101T110000Z\nEND:VEVENT".data]
      ["BEGIN:VEVENT\nUID:b\nDTSTART:20240201T100000Z\nDTEND:20240201T110000Z\nEND:VEVENT".data]
      "BEGIN:VEVENT\nDTSTART:20240101T100000Z\nDTEND:20240101T110000Z\nEND:VEVENT".data
      (by decide)⟩

lemma splitNl_ne_nil (s : Str) : splitNl s ≠ [] := by
  cases s with
  | nil => simp [splitNl]
  | cons c cs =>
    simp only [splitNl]
    rcases h : splitNl cs with - | ⟨r, rs⟩
    · simp
    · by_cases hc : c = '\n' <;> simp [hc]

lemma splitNl_no_nl (s : Str) (h : '\n' ∉ s) : splitNl s = [s] := by
  induction s with
  | nil => rfl
  | cons c cs ih =>
    simp only [List.mem_cons, not_or] at h
    have hc : ¬(c = '\n') := fun hh => h.1 (Eq.symm hh)
    simp [splitNl, ih h.2, hc]

lemma splitNl_crlf (l rest : Str) (h : '\n' ∉ l) :
    splitNl (l ++ '\r' :: '\n' :: rest) = (l ++ ['\r']) :: splitNl rest := by
  induction l with
  | nil =>
    simp only [List.nil_append, splitNl]
    rcases hr : splitNl rest with - | ⟨r, rs⟩
    · exact absurd hr (splitNl_ne_nil rest)
    · simp
  | cons c cs ih =>
    simp only [List.mem_cons, not_or] at h
    have hc : ¬(c = '\n') := fun hh => h.1 (Eq.symm hh)
    rw [List.cons_append]
    simp only [splitNl]
    rw [ih h.2]
    simp [hc]

lemma dropWhile_append_all {p : Char → Bool} (l₁ l₂ : Str)
    (h : l₁.dropWhile p = []) :
    (l₁ ++ l₂).dropWhile p = l₂.dropWhile p := by
  induction l₁ with
  | nil => simp
  | cons c cs ih =>
    by_cases hc : p c
    · rw [List.dropWhile_cons, if_pos hc] at h
      rw [List.cons_append, List.dropWhile_cons, if_pos hc]
      exact ih h
    · rw [List.dropWhile_cons, if_neg hc] at h
      exact absurd h (by simp)

lemma dropWhile_append_ne {p : Char → Bool} (l₁ l₂ : Str)
    (h : ¬l₁.dropWhile p = []) :
    (l₁ ++ l₂).dropWhile p = l₁.dropWhile p ++ l₂ := by
  induction l₁ with
  | nil => simp at h
  | cons c cs ih =>
    by_cases hc : p c
    · rw [List.dropWhile_cons, if_pos hc] at h
      show List.dropWhile p (c :: (cs ++ l₂)) = List.dropWhile p (c :: cs) ++ l₂
      rw [List.dropWhile_cons, List.dropWhile_cons, if_pos hc, if_pos hc]
      exact ih h
    · show List.dropWhile p (c :: (cs ++ l₂)) = List.dropWhile p (c :: cs) ++ l₂
      rw [List.dropWhile_cons, List.dropWhile_cons, if_neg hc, if_neg hc]
      simp

lemma dropTrailWs_append (xs v : Str) (c : Char)
    (hlast : xs.getLast? = some c) (hc : isPySpace c = false) :
    dropTrailWs (xs ++ v) = xs ++ dropTrailWs v := by
  unfold dropTrailWs
  rw [List.reverse_append]
  by_cases hv : v.reverse.dropWhile isPySpace = []
  · rw [dropWhile_append_all _ _ hv, hv]
    have hx : xs.reverse.dropWhile isPySpace = xs.reverse := by
      cases hxr : xs.reverse with
      | nil => simp
      | cons d ds =>
        have hd : xs.getLast? = some d := by
          rw [← List.head?_reverse, hxr]
          rfl
        rw [hd] at hlast
        obtain rfl : c = d := by injection hlast with h2; exact h2.symm
        rw [List.dropWhile_cons, if_neg (by simp [hc])]
    rw [hx]
    simp
  · rw [dropWhile_append_ne _ _ hv]
    simp

lemma dropTrailWs_eq_self (s : Str) (c : Char)
    (hlast : s.getLast? = some c) (hc : isPySpace c = false) :
    dropTrailWs s = s := by
  have h := dropTrailWs_append s [] c hlast hc
  simpa [dropTrailWs] using h

lemma dropTrailWs_cr (v : Str) : dropTrailWs (v ++ ['\r']) = dropTrailWs v := by
  unfold dropTrailWs
  rw [List.reverse_append]
  rfl

lemma pyStrip_append (xs v : Str) (b c : Char) (hhead : xs.head? = some b)
    (hb : isPySpace b = false) (hlast : xs.getLast? = some c)
    (hc : isPySpace c = false) :
    pyStrip (xs ++ v) = xs ++ dropTrailWs v := by
  unfold pyStrip
  cases xs with
  | nil => simp at hhead
  | cons d ds =>
    obtain rfl : b = d := by injection hhead with h2; exact h2.symm
    rw [List.cons_append, List.dropWhile_cons, if_neg (by simp [hb])]
    exact dropTrailWs_append _ _ c hlast hc

/- ### Apple event body generation (apple_client.py _create_ical_event).
The booking carries its UTC times and text fields; the client context is
the organizer identity plus the fixed-offset model of the profile
timezone. -/

structure Booking where
  start_time : DateTime
  end_time : DateTime
  created_at : DateTime
  invitee_name : Str
  invitee_email : Str
  event_type_name : Str
  location_details : Str
  meeting_link : Str
deriving DecidableEq

structure AppleClientCtx where
  first_name : Str
  last_name : Str
  email : Str
  tz_offset_minutes : Int
deriving DecidableEq

/-- The DESCRIPTION line of _create_ical_event; the doubled backslashes of
the Python source are literal backslash-n sequences, not newlines. -/
def descriptionLine (b : Booking) : Str :=
  "DESCRIPTION:Booking created via Calendly Clone\\n\\nInvitee: ".data ++
    b.invitee_name ++ " (".data ++ b.invitee_email ++
    ")\\nEvent Type: ".data ++ b.event_type_name

/-- The meeting-link DESCRIPTION line appended when a link exists. -/
def descriptionLinkLine (b : Booking) : Str :=
  "DESCRIPTION:Booking created via Calendly Clone\\n\\nInvitee: ".data ++
    b.invitee_name ++ " (".data ++ b.invitee_email ++
    ")\\nEvent Type: ".data ++ b.event_type_name ++
    "\\n\\nMeeting Link: ".data ++ b.meeting_link

/-- Line list of _create_ical_event in source order: the fixed block, the
meeting-link DESCRIPTION when truthy, LOCATION when truthy, then the
closing markers. -/
def icalLines (ctx : AppleClientCtx) (b : Booking) (event_uid : Str) :
    List Str :=
  ["BEGIN:VCALENDAR".data,
   "VERSION:2.0".data,
   "PRODID:-//Calendly Clone//EN".data,
   "CALSCALE:GREGORIAN".data,
   "METHOD:PUBLISH".data,
   "BEGIN:VEVENT".data,
   "UID:".data ++ event_uid,
   "DTSTART:".data ++ fmtBasicZ b.start_time,
   "DTEND:".data ++ fmtBasicZ b.end_time,
   "DTSTAMP:".data ++ fmtBasicZ b.created_at,
   "CREATED:".data ++ fmtBasicZ b.created_at,
   "SUMMARY:".data ++ b.event_type_name ++ " with ".data ++ b.invitee_name,
   descriptionLine b,
   "ORGANIZER;CN=".data ++ ctx.first_name ++ " ".data ++ ctx.last_name ++
     ":mailto:".data ++ ctx.email,
   "ATTENDEE;CN=".data ++ b.invitee_name ++ ";RSVP=TRUE:mailto:".data ++
     b.invitee_email,
   "STATUS:CONFIRMED".data,
   "TRANSP:OPAQUE".data,
   "SEQUENCE:0".data] ++
  (if ¬b.meeting_link = [] then [descriptionLinkLine b] else []) ++
  (if ¬b.location_details = [] then
    ["LOCATION:".data ++ b.location_details] else []) ++
  ["END:VEVENT".data, "END:VCALENDAR".data]

/-- apple_client.py _create_ical_event: the CRLF join of the line list. -/
def _create_ical_event (ctx : AppleClientCtx) (b : Booking)
    (event_uid : Str) : Str :=
  joinCRLF (icalLines ctx b event_uid)

lemma mem_dropWhile_of_mem {p : Char → Bool} {a : Char} {s : Str}
    (ha : p a = false) (h : a ∈ s) : a ∈ s.dropWhile p := by
  induction s with
  | nil => simp at h
  | cons c cs ih =>
    rw [List.dropWhile_cons]
    by_cases hc : p c
    · rw [if_pos hc]
      rcases List.mem_cons.1 h with rfl | h2
      · rw [hc] at ha
        exact absurd ha (by simp)
      · exact ih h2
    · rw [if_neg hc]
      exact h

lemma mem_dropTrailWs {a : Char} {s : Str} (ha : isPySpace a = false)
    (h : a ∈ s) : a ∈ dropTrailWs s := by
  unfold dropTrailWs
  rw [List.mem_reverse]
  exact mem_dropWhile_of_mem ha (List.mem_reverse.2 h)

lemma dropTrailWs_eq_self_of (s : Str)
    (h : ∀ c, s.getLast? = some c → isPySpace c = false) :
    dropTrailWs s = s := by
  cases hs : s.getLast? with
  | none =>
    rw [List.getLast?_eq_none_iff] at hs
    simp [hs, dropTrailWs]
  | some c => exact dropTrailWs_eq_self s c hs (h c hs)

lemma nl_ne_natDigit (n : Nat) : ¬('\n' = natDigit n) := by
  unfold natDigit
  split_ifs <;> decide


lemma getLast?_joinCRLF (ls : List Str) (lastLine : Str) (c : Char)
    (h : lastLine.getLast? = some c) :
    (joinCRLF (ls ++ [lastLine])).getLast? = some c := by
  induction ls with
  | nil => simpa [joinCRLF]
  | cons l ls2 ih =>
    have hstep : joinCRLF ((l :: ls2) ++ [lastLine]) =
        l ++ '\r' :: '\n' :: joinCRLF (ls2 ++ [lastLine]) := by
      cases ls2 <;> rfl
    rw [hstep, List.getLast?_append]
    rw [show ('\r' :: '\n' :: joinCRLF (ls2 ++ [lastLine])) =
      ['\r', '\n'] ++ joinCRLF (ls2 ++ [lastLine]) from rfl]
    rw [List.getLast?_append, ih]
    rfl

lemma head?_joinCRLF (l : Str) (ls : List Str) (c : Char)
    (h : l.head? = some c) : (joinCRLF (l :: ls)).head? = some c := by
  cases ls with
  | nil => simpa [joinCRLF]
  | cons m ms =>
    show (l ++ '\r' :: '\n' :: joinCRLF (m :: ms)).head? = some c
    cases l with
    | nil => simp at h
    | cons d ds => simpa using h

lemma pyStrip_eq_self (s : Str) (b c : Char) (hhead : s.head? = some b)
    (hb : isPySpace b = false) (hlast : s.getLast? = some c)
    (hc : isPySpace c = false) : pyStrip s = s := by
  have h := pyStrip_append s [] b c hhead hb hlast hc
  simpa [dropTrailWs] using h

lemma collectProps_skip_pre (l : Str) (ls : List Str)
    (acc : List (Str × Str)) (h1 : ¬pyStrip l = "BEGIN:VEVENT".data)
    (h2 : ¬pyStrip l = "END:VEVENT".data) :
    collectProps (l :: ls) false acc = collectProps ls false acc := by
  simp [collectProps, h1, h2]

lemma collectProps_begin (l : Str) (ls : List Str) (iE : Bool)
    (acc : List (Str × Str)) (h : pyStrip l = "BEGIN:VEVENT".data) :
    collectProps (l :: ls) iE acc = collectProps ls true acc := by
  simp [collectProps, h]

lemma collectProps_stop (l : Str) (ls : List Str) (iE : Bool)
    (acc : List (Str × Str)) (h : pyStrip l = "END:VEVENT".data) :
    collectProps (l :: ls) iE acc = acc := by
  have hne : ¬pyStrip l = "BEGIN:VEVENT".data := by
    rw [h]
    decide
  simp [collectProps, h, hne]

lemma collectProps_bind (l : Str) (ls : List Str) (acc : List (Str × Str))
    (h1 : ¬pyStrip l = "BEGIN:VEVENT".data)
    (h2 : ¬pyStrip l = "END:VEVENT".data) (h3 : ':' ∈ pyStrip l) :
    collectProps (l :: ls) true acc =
      collectProps ls true
        (((if ';' ∈ (pyStrip l).takeWhile (fun c => ¬c = ':') then
            ((pyStrip l).takeWhile (fun c => ¬c = ':')).takeWhile
              (fun c => ¬c = ';')
          else (pyStrip l).takeWhile (fun c => ¬c = ':')),
          ((pyStrip l).dropWhile (fun c => ¬c = ':')).tail) :: acc) := by
  simp [collectProps, h1, h2, h3]

lemma create_strip_id (ctx : AppleClientCtx) (b : Booking) (uid : Str) :
    pyStrip (_create_ical_event ctx b uid) = _create_ical_event ctx b uid := by
  refine pyStrip_eq_self _ 'B' 'R' ?_ (by decide) ?_ (by decide)
  · simp only [_create_ical_event]
    exact head?_joinCRLF "BEGIN:VCALENDAR".data _ 'B' rfl
  · simp only [_create_ical_event]
    have hre : icalLines ctx b uid =
        (["BEGIN:VCALENDAR".data,
          "VERSION:2.0".data,
          "PRODID:-//Calendly Clone//EN".data,
          "CALSCALE:GREGORIAN".data,
          "METHOD:PUBLISH".data,
          "BEGIN:VEVENT".data,
          "UID:".data ++ uid,
          "DTSTART:".data ++ fmtBasicZ b.start_time,
          "DTEND:".data ++ fmtBasicZ b.end_time,
          "DTSTAMP:".data ++ fmtBasicZ b.created_at,
          "CREATED:".data ++ fmtBasicZ b.created_at,
          "SUMMARY:".data ++ b.event_type_name ++ " with ".data ++
            b.invitee_name,
          descriptionLine b,
          "ORGANIZER;CN=".data ++ ctx.first_name ++ " ".data ++
            ctx.last_name ++ ":mailto:".data ++ ctx.email,
          "ATTENDEE;CN=".data ++ b.invitee_name ++
            ";RSVP=TRUE:mailto:".data ++ b.invitee_email,
          "STATUS:CONFIRMED".data,
          "TRANSP:OPAQUE".data,
          "SEQUENCE:0".data] ++
          (if ¬b.meeting_link = [] then [descriptionLinkLine b] else []) ++
          (if ¬b.location_details = [] then
            ["LOCATION:".data ++ b.location_details] else []) ++
          ["END:VEVENT".data]) ++ ["END:VCALENDAR".data] := by
      simp [icalLines, List.append_assoc]
    rw [hre]
    exact getLast?_joinCRLF _ _ 'R' rfl


set_option maxRecDepth 8000 in
set_option maxHeartbeats 2000000 in
/-- C4 (amended: the round trip holds provided the uid and the booking and
organizer text fields contain no newline character — a newline inside a
field injects extra iCalendar lines, see the counterexample — and the uid
does not end in whitespace, which line stripping would remove): parsing the
generated Apple event body yields an event whose external_id, start and end
equal the uid and the booking times. -/
theorem apple_ical_event_roundtrip (ctx : AppleClientCtx) (b : Booking)
    (uid : Str) (hvs : ValidDateTime b.start_time)
    (hve : ValidDateTime b.end_time) (hnuid : '\n' ∉ uid)
    (hnin : '\n' ∉ b.invitee_name) (hnie : '\n' ∉ b.invitee_email)
    (hnet : '\n' ∉ b.event_type_name) (hnld : '\n' ∉ b.location_details)
    (hnml : '\n' ∉ b.meeting_link) (hnfn : '\n' ∉ ctx.first_name)
    (hnln : '\n' ∉ ctx.last_name) (hnem : '\n' ∉ ctx.email)
    (htuid : ∀ c, uid.getLast? = some c → isPySpace c = false) :
    (apple_parse_ical_event ctx.tz_offset_minutes
        (_create_ical_event ctx b uid)).map
      (fun e => (e.external_id, e.start_datetime, e.end_datetime)) =
      some (uid, b.start_time, b.end_time) := by
  have nlfmt : ∀ dt : DateTime, '\n' ∉ fmtBasicZ dt := by
    intro dt
    simp [fmtBasicZ, nl_ne_natDigit]
  have nl7 : '\n' ∉ "UID:".data ++ uid := by simp [hnuid]
  have nl8 : '\n' ∉ "DTSTART:".data ++ fmtBasicZ b.start_time := by
    simp [nlfmt b.start_time]
  have nl9 : '\n' ∉ "DTEND:".data ++ fmtBasicZ b.end_time := by
    simp [nlfmt b.end_time]
  have nl10 : '\n' ∉ "DTSTAMP:".data ++ fmtBasicZ b.created_at := by
    simp [nlfmt b.created_at]
  have nl11 : '\n' ∉ "CREATED:".data ++ fmtBasicZ b.created_at := by
    simp [nlfmt b.created_at]
  have nl12 : '\n' ∉ "SUMMARY:".data ++ b.event_type_name ++
      " with ".data ++ b.invitee_name := by
    simp [hnet, hnin]
  have nl13 : '\n' ∉ descriptionLine b := by
    simp [descriptionLine, hnin, hnie, hnet]
  have nl14 : '\n' ∉ "ORGANIZER;CN=".data ++ ctx.first_name ++ " ".data ++
      ctx.last_name ++ ":mailto:".data ++ ctx.email := by
    simp [hnfn, hnln, hnem]
  have nl15 : '\n' ∉ "ATTENDEE;CN=".data ++ b.invitee_name ++
      ";RSVP=TRUE:mailto:".data ++ b.invitee_email := by
    simp [hnin, hnie]
  have nl19 : '\n' ∉ descriptionLinkLine b := by
    simp [descriptionLinkLine, hnin, hnie, hnet, hnml]
  have nl20 : '\n' ∉ "LOCATION:".data ++ b.location_details := by
    simp [hnld]
  have st7 : pyStrip ("UID:".data ++ uid ++ ['\r']) = "UID:".data ++ uid := by
    simp only [List.append_assoc]
    rw [pyStrip_append "UID:".data _ 'U' ':' rfl (by decide) rfl (by decide),
      dropTrailWs_cr, dropTrailWs_eq_self_of uid htuid]
  have st8 : pyStrip ("DTSTART:".data ++ fmtBasicZ b.start_time ++ ['\r']) =
      "DTSTART:".data ++ fmtBasicZ b.start_time := by
    simp only [List.append_assoc]
    rw [pyStrip_append "DTSTART:".data _ 'D' ':' rfl (by decide) rfl
        (by decide),
      dropTrailWs_cr,
      dropTrailWs_eq_self _ 'Z' (getLast?_fmtBasicZ _) (by decide)]
  have st9 : pyStrip ("DTEND:".data ++ fmtBasicZ b.end_time ++ ['\r']) =
      "DTEND:".data ++ fmtBasicZ b.end_time := by
    simp only [List.append_assoc]
    rw [pyStrip_append "DTEND:".data _ 'D' ':' rfl (by decide) rfl
        (by decide),
      dropTrailWs_cr,
      dropTrailWs_eq_self _ 'Z' (getLast?_fmtBasicZ _) (by decide)]
  have st10 : pyStrip ("DTSTAMP:".data ++ fmtBasicZ b.created_at ++ ['\r']) =
      "DTSTAMP:".data ++ fmtBasicZ b.created_at := by
    simp only [List.append_assoc]
    rw [pyStrip_append "DTSTAMP:".data _ 'D' ':' rfl (by decide) rfl
        (by decide),
      dropTrailWs_cr,
      dropTrailWs_eq_self _ 'Z' (getLast?_fmtBasicZ _) (by decide)]
  have st11 : pyStrip ("CREATED:".data ++ fmtBasicZ b.created_at ++ ['\r']) =
      "CREATED:".data ++ fmtBasicZ b.created_at := by
    simp only [List.append_assoc]
    rw [pyStrip_append "CREATED:".data _ 'C' ':' rfl (by decide) rfl
        (by decide),
      dropTrailWs_cr,
      dropTrailWs_eq_self _ 'Z' (getLast?_fmtBasicZ _) (by decide)]
  have st12 : pyStrip ("SUMMARY:".data ++ b.event_type_name ++
        " with ".data ++ b.invitee_name ++ ['\r']) =
      "SUMMARY:".data ++ dropTrailWs (b.event_type_name ++
        (" with ".data ++ (b.invitee_name ++ ['\r']))) := by
    simp only [List.append_assoc]
    exact pyStrip_append "SUMMARY:".data _ 'S' ':' rfl (by decide) rfl
      (by decide)
  have st13 : pyStrip (descriptionLine b ++ ['\r']) =
      "DESCRIPTION:Booking created via Calendly Clone\\n\\nInvitee:".data ++
        dropTrailWs (' ' :: (b.invitee_name ++ (" (".data ++
          (b.invitee_email ++ (")\\nEvent Type: ".data ++
            (b.event_type_name ++ ['\r'])))))) := by
    simp only [descriptionLine, List.append_assoc]
    exact pyStrip_append "DESCRIPTION:Booking created via Calendly Clone\\n\\nInvitee:".data
      (' ' :: (b.invitee_name ++ (" (".data ++ (b.invitee_email ++
        (")\\nEvent Type: ".data ++ (b.event_type_name ++ ['\r'])))))) 'D'
      ':' rfl (by decide) rfl (by decide)
  have st14 : pyStrip ("ORGANIZER;CN=".data ++ ctx.first_name ++ " ".data ++
        ctx.last_name ++ ":mailto:".data ++ ctx.email ++ ['\r']) =
      "ORGANIZER;CN=".data ++ dropTrailWs (ctx.first_name ++ (" ".data ++
        (ctx.last_name ++ (":mailto:".data ++ (ctx.email ++ ['\r']))))) := by
    simp only [List.append_assoc]
    exact pyStrip_append "ORGANIZER;CN=".data _ 'O' '=' rfl (by decide) rfl
      (by decide)
  have st15 : pyStrip ("ATTENDEE;CN=".data ++ b.invitee_name ++
        ";RSVP=TRUE:mailto:".data ++ b.invitee_email ++ ['\r']) =
      "ATTENDEE;CN=".data ++ dropTrailWs (b.invitee_name ++
        (";RSVP=TRUE:mailto:".data ++ (b.invitee_email ++ ['\r']))) := by
    simp only [List.append_assoc]
    exact pyStrip_append "ATTENDEE;CN=".data _ 'A' '=' rfl (by decide) rfl
      (by decide)
  have st19 : pyStrip (descriptionLinkLine b ++ ['\r']) =
      "DESCRIPTION:Booking created via Calendly Clone\\n\\nInvitee:".data ++
        dropTrailWs (' ' :: (b.invitee_name ++ (" (".data ++
          (b.invitee_email ++ (")\\nEvent Type: ".data ++
            (b.event_type_name ++ ("\\n\\nMeeting Link: ".data ++
              (b.meeting_link ++ ['\r'])))))))) := by
    simp only [descriptionLinkLine, List.append_assoc]
    exact pyStrip_append "DESCRIPTION:Booking created via Calendly Clone\\n\\nInvitee:".data
      (' ' :: (b.invitee_name ++ (" (".data ++ (b.invitee_email ++
        (")\\nEvent Type: ".data ++ (b.event_type_name ++
          ("\\n\\nMeeting Link: ".data ++ (b.meeting_link ++ ['\r']))))))))
      'D' ':' rfl (by decide) rfl (by decide)
  have st20 : pyStrip ("LOCATION:".data ++ b.location_details ++ ['\r']) =
      "LOCATION:".data ++ dropTrailWs (b.location_details ++ ['\r']) := by
    simp only [List.append_assoc]
    exact pyStrip_append "LOCATION:".data _ 'L' ':' rfl (by decide) rfl
      (by decide)
  have stS : pyStrip ("STATUS:CONFIRMED".data ++ ['\r']) =
      "STATUS:CONFIRMED".data := by decide
  have stT : pyStrip ("TRANSP:OPAQUE".data ++ ['\r']) =
      "TRANSP:OPAQUE".data := by decide
  have stQ : pyStrip ("SEQUENCE:0".data ++ ['\r']) =
      "SEQUENCE:0".data := by decide
  have hds : apple_parse_ical_datetime ctx.tz_offset_minutes
      (fmtBasicZ b.start_time) = some b.start_time := by
    rw [apple_parse_ical_datetime, if_pos (getLast?_fmtBasicZ _)]
    exact parse_dt_z16_fmt _ hvs
  have hde : apple_parse_ical_datetime ctx.tz_offset_minutes
      (fmtBasicZ b.end_time) = some b.end_time := by
    rw [apple_parse_ical_datetime, if_pos (getLast?_fmtBasicZ _)]
    exact parse_dt_z16_fmt _ hve
  simp only [apple_parse_ical_event]
  rw [create_strip_id]
  simp only [_create_ical_event]
  by_cases hml : b.meeting_link = []
  · by_cases hloc : b.location_details = []
    · have hlist : icalLines ctx b uid =
            ["BEGIN:VCALENDAR".data,
              "VERSION:2.0".data,
              "PRODID:-//Calendly Clone//EN".data,
              "CALSCALE:GREGORIAN".data,
              "METHOD:PUBLISH".data,
              "BEGIN:VEVENT".data,
              "UID:".data ++ uid,
              "DTSTART:".data ++ fmtBasicZ b.start_time,
              "DTEND:".data ++ fmtBasicZ b.end_time,
              "DTSTAMP:".data ++ fmtBasicZ b.created_at,
              "CREATED:".data ++ fmtBasicZ b.created_at,
              "SUMMARY:".data ++ b.event_type_name ++ " with ".data ++
                b.invitee_name,
              descriptionLine b,
              "ORGANIZER;CN=".data ++ ctx.first_name ++ " ".data ++
                ctx.last_name ++ ":mailto:".data ++ ctx.email,
              "ATTENDEE;CN=".data ++ b.invitee_name ++
                ";RSVP=TRUE:mailto:".data ++ b.invitee_email,
              "STATUS:CONFIRMED".data,
              "TRANSP:OPAQUE".data,
              "SEQUENCE:0".data,
              "END:VEVENT".data,
              "END:VCALENDAR".data] := by
        simp [icalLines, hml, hloc]
      rw [hlist]
      simp only [joinCRLF]
      rw [splitNl_crlf _ _ (by decide), splitNl_crlf _ _ (by decide),
        splitNl_crlf _ _ (by decide), splitNl_crlf _ _ (by decide),
        splitNl_crlf _ _ (by decide), splitNl_crlf _ _ (by decide),
        splitNl_crlf _ _ nl7, splitNl_crlf _ _ nl8, splitNl_crlf _ _ nl9,
        splitNl_crlf _ _ nl10, splitNl_crlf _ _ nl11, splitNl_crlf _ _ nl12,
        splitNl_crlf _ _ nl13, splitNl_crlf _ _ nl14, splitNl_crlf _ _ nl15,
        splitNl_crlf _ _ (by decide), splitNl_crlf _ _ (by decide),
        splitNl_crlf _ _ (by decide),
        splitNl_crlf _ _ (by decide), splitNl_no_nl _ (by decide)]
      rw [collectProps_skip_pre _ _ _ (by decide) (by decide),
        collectProps_skip_pre _ _ _ (by decide) (by decide),
        collectProps_skip_pre _ _ _ (by decide) (by decide),
        collectProps_skip_pre _ _ _ (by decide) (by decide),
        collectProps_skip_pre _ _ _ (by decide) (by decide),
        collectProps_begin _ _ _ _ (by decide),
        collectProps_bind _ _ _ (by rw [st7]; simp) (by rw [st7]; simp)
          (by rw [st7]; simp),
        collectProps_bind _ _ _ (by rw [st8]; simp) (by rw [st8]; simp)
          (by rw [st8]; simp),
        collectProps_bind _ _ _ (by rw [st9]; simp) (by rw [st9]; simp)
          (by rw [st9]; simp),
        collectProps_bind _ _ _ (by rw [st10]; simp) (by rw [st10]; simp)
          (by rw [st10]; simp),
        collectProps_bind _ _ _ (by rw [st11]; simp) (by rw [st11]; simp)
          (by rw [st11]; simp),
        collectProps_bind _ _ _ (by rw [st12]; simp) (by rw [st12]; simp)
          (by rw [st12]; simp),
        collectProps_bind _ _ _ (by rw [st13]; simp) (by rw [st13]; simp)
          (by rw [st13]; simp),
        collectProps_bind _ _ _ (by rw [st14]; simp) (by rw [st14]; simp)
          (by rw [st14]
              exact List.mem_append.2 (Or.inr (mem_dropTrailWs (by decide)
                (by simp)))),
        collectProps_bind _ _ _ (by rw [st15]; simp) (by rw [st15]; simp)
          (by rw [st15]
              exact List.mem_append.2 (Or.inr (mem_dropTrailWs (by decide)
                (by simp)))),
        collectProps_bind _ _ _ (by decide) (by decide) (by decide),
        collectProps_bind _ _ _ (by decide) (by decide) (by decide),
        collectProps_bind _ _ _ (by decide) (by decide) (by decide),
        collectProps_stop _ _ _ _ (by decide)]
      rw [st7, st8, st9, st10, st11, st12, st13, st14, st15, stS, stT,
        stQ]
      simp [dictFind, hds, hde]
    · have hlist : icalLines ctx b uid =
            ["BEGIN:VCALENDAR".data,
              "VERSION:2.0".data,
              "PRODID:-//Calendly Clone//EN".data,
              "CALSCALE:GREGORIAN".data,
              "METHOD:PUBLISH".data,
              "BEGIN:VEVENT".data,
              "UID:".data ++ uid,
              "DTSTART:".data ++ fmtBasicZ b.start_time,
              "DTEND:".data ++ fmtBasicZ b.end_time,
              "DTSTAMP:".data ++ fmtBasicZ b.created_at,
              "CREATED:".data ++ fmtBasicZ b.created_at,
              "SUMMARY:".data ++ b.event_type_name ++ " with ".data ++
                b.invitee_name,
              descriptionLine b,
              "ORGANIZER;CN=".data ++ ctx.first_name ++ " ".data ++
                ctx.last_name ++ ":mailto:".data ++ ctx.email,
              "ATTENDEE;CN=".data ++ b.invitee_name ++
                ";RSVP=TRUE:mailto:".data ++ b.invitee_email,
              "STATUS:CONFIRMED".data,
              "TRANSP:OPAQUE".data,
              "SEQUENCE:0".data,
              "LOCATION:".data ++ b.location_details,
              "END:VEVENT".data,
              "END:VCALENDAR".data] := by
        simp [icalLines, hml, hloc]
      rw [hlist]
      simp only [joinCRLF]
      rw [splitNl_crlf _ _ (by decide), splitNl_crlf _ _ (by decide),
        splitNl_crlf _ _ (by decide), splitNl_crlf _ _ (by decide),
        splitNl_crlf _ _ (by decide), splitNl_crlf _ _ (by decide),
        splitNl_crlf _ _ nl7, splitNl_crlf _ _ nl8, splitNl_crlf _ _ nl9,
        splitNl_crlf _ _ nl10, splitNl_crlf _ _ nl11, splitNl_crlf _ _ nl12,
        splitNl_crlf _ _ nl13, splitNl_crlf _ _ nl14, splitNl_crlf _ _ nl15,
        splitNl_crlf _ _ (by decide), splitNl_crlf _ _ (by decide),
        splitNl_crlf _ _ (by decide),
        splitNl_crlf _ _ nl20,
        splitNl_crlf _ _ (by decide), splitNl_no_nl _ (by decide)]
      rw [collectProps_skip_pre _ _ _ (by decide) (by decide),
        collectProps_skip_pre _ _ _ (by decide) (by decide),
        collectProps_skip_pre _ _ _ (by decide) (by decide),
        collectProps_skip_pre _ _ _ (by decide) (by decide),
        collectProps_skip_pre _ _ _ (by decide) (by decide),
        collectProps_begin _ _ _ _ (by decide),
        collectProps_bind _ _ _ (by rw [st7]; simp) (by rw [st7]; simp)
          (by rw [st7]; simp),
        collectProps_bind _ _ _ (by rw [st8]; simp) (by rw [st8]; simp)
          (by rw [st8]; simp),
        collectProps_bind _ _ _ (by rw [st9]; simp) (by rw [st9]; simp)
          (by rw [st9]; simp),
        collectProps_bind _ _ _ (by rw [st10]; simp) (by rw [st10]; simp)
          (by rw [st10]; simp),
        collectProps_bind _ _ _ (by rw [st11]; simp) (by rw [st11]; simp)
          (by rw [st11]; simp),
        collectProps_bind _ _ _ (by rw [st12]; simp) (by rw [st12]; simp)
          (by rw [st12]; simp),
        collectProps_bind _ _ _ (by rw [st13]; simp) (by rw [st13]; simp)
          (by rw [st13]; simp),
        collectProps_bind _ _ _ (by rw [st14]; simp) (by rw [st14]; simp)
          (by rw [st14]
              exact List.mem_append.2 (Or.inr (mem_dropTrailWs (by decide)
                (by simp)))),
        collectProps_bind _ _ _ (by rw [st15]; simp) (by rw [st15]; simp)
          (by rw [st15]
              exact List.mem_append.2 (Or.inr (mem_dropTrailWs (by decide)
                (by simp)))),
        collectProps_bind _ _ _ (by decide) (by decide) (by decide),
        collectProps_bind _ _ _ (by decide) (by decide) (by decide),
        collectProps_bind _ _ _ (by decide) (by decide) (by decide),
        collectProps_bind _ _ _ (by rw [st20]; simp) (by rw [st20]; simp)
          (by rw [st20]; simp),
        collectProps_stop _ _ _ _ (by decide)]
      rw [st7, st8, st9, st10, st11, st12, st13, st14, st15, stS, stT,
        stQ, st20]
      simp [dictFind, hds, hde]
  · by_cases hloc : b.location_details = []
    · have hlist : icalLines ctx b uid =
            ["BEGIN:VCALENDAR".data,
              "VERSION:2.0".data,
              "PRODID:-//Calendly Clone//EN".data,
              "CALSCALE:GREGORIAN".data,
              "METHOD:PUBLISH".data,
              "BEGIN:VEVENT".data,
              "UID:".data ++ uid,
              "DTSTART:".data ++ fmtBasicZ b.start_time,
              "DTEND:".data ++ fmtBasicZ b.end_time,
              "DTSTAMP:".data ++ fmtBasicZ b.created_at,
              "CREATED:".data ++ fmtBasicZ b.created_at,
              "SUMMARY:".data ++ b.event_type_name ++ " with ".data ++
                b.invitee_name,
              descriptionLine b,
              "ORGANIZER;CN=".data ++ ctx.first_name ++ " ".data ++
                ctx.last_name ++ ":mailto:".data ++ ctx.email,
              "ATTENDEE;CN=".data ++ b.invitee_name ++
                ";RSVP=TRUE:mailto:".data ++ b.invitee_email,
              "STATUS:CONFIRMED".data,
              "TRANSP:OPAQUE".data,
              "SEQUENCE:0".data,
              descriptionLinkLine b,
              "END:VEVENT".data,
              "END:VCALENDAR".data] := by
        simp [icalLines, hml, hloc]
      rw [hlist]
      simp only [joinCRLF]
      rw [splitNl_crlf _ _ (by decide), splitNl_crlf _ _ (by decide),
        splitNl_crlf _ _ (by decide), splitNl_crlf _ _ (by decide),
        splitNl_crlf _ _ (by decide), splitNl_crlf _ _ (by decide),
        splitNl_crlf _ _ nl7, splitNl_crlf _ _ nl8, splitNl_crlf _ _ nl9,
        splitNl_crlf _ _ nl10, splitNl_crlf _ _ nl11, splitNl_crlf _ _ nl12,
        splitNl_crlf _ _ nl13, splitNl_crlf _ _ nl14, splitNl_crlf _ _ nl15,
        splitNl_crlf _ _ (by decide), splitNl_crlf _ _ (by decide),
        splitNl_crlf _ _ (by decide),
        splitNl_crlf _ _ nl19,
        splitNl_crlf _ _ (by decide), splitNl_no_nl _ (by decide)]
      rw [collectProps_skip_pre _ _ _ (by decide) (by decide),
        collectProps_skip_pre _ _ _ (by decide) (by decide),
        collectProps_skip_pre _ _ _ (by decide) (by decide),
        collectProps_skip_pre _ _ _ (by decide) (by decide),
        collectProps_skip_pre _ _ _ (by decide) (by decide),
        collectProps_begin _ _ _ _ (by decide),
        collectProps_bind _ _ _ (by rw [st7]; simp) (by rw [st7]; simp)
          (by rw [st7]; simp),
        collectProps_bind _ _ _ (by rw [st8]; simp) (by rw [st8]; simp)
          (by rw [st8]; simp),
        collectProps_bind _ _ _ (by rw [st9]; simp) (by rw [st9]; simp)
          (by rw [st9]; simp),
        collectProps_bind _ _ _ (by rw [st10]; simp) (by rw [st10]; simp)
          (by rw [st10]; simp),
        collectProps_bind _ _ _ (by rw [st11]; simp) (by rw [st11]; simp)
          (by rw [st11]; simp),
        collectProps_bind _ _ _ (by rw [st12]; simp) (by rw [st12]; simp)
          (by rw [st12]; simp),
        collectProps_bind _ _ _ (by rw [st13]; simp) (by rw [st13]; simp)
          (by rw [st13]; simp),
        collectProps_bind _ _ _ (by rw [st14]; simp) (by rw [st14]; simp)
          (by rw [st14]
              exact List.mem_append.2 (Or.inr (mem_dropTrailWs (by decide)
                (by simp)))),
        collectProps_bind _ _ _ (by rw [st15]; simp) (by rw [st15]; simp)
          (by rw [st15]
              exact List.mem_append.2 (Or.inr (mem_dropTrailWs (by decide)
                (by simp)))),
        collectProps_bind _ _ _ (by decide) (by decide) (by decide),
        collectProps_bind _ _ _ (by decide) (by decide) (by decide),
        collectProps_bind _ _ _ (by decide) (by decide) (by decide),
        collectProps_bind _ _ _ (by rw [st19]; simp) (by rw [st19]; simp)
          (by rw [st19]; simp),
        collectProps_stop _ _ _ _ (by decide)]
      rw [st7, st8, st9, st10, st11, st12, st13, st14, st15, stS, stT,
        stQ, st19]
      simp [dictFind, hds, hde]
    · have hlist : icalLines ctx b uid =
            ["BEGIN:VCALENDAR".data,
              "VERSION:2.0".data,
              "PRODID:-//Calendly Clone//EN".data,
              "CALSCALE:GREGORIAN".data,
              "METHOD:PUBLISH".data,
              "BEGIN:VEVENT".data,
              "UID:".data ++ uid,
              "DTSTART:".data ++ fmtBasicZ b.start_time,
              "DTEND:".data ++ fmtBasicZ b.end_time,
              "DTSTAMP:".data ++ fmtBasicZ b.created_at,
              "CREATED:".data ++ fmtBasicZ b.created_at,
              "SUMMARY:".data ++ b.event_type_name ++ " with ".data ++
                b.invitee_name,
              descriptionLine b,
              "ORGANIZER;CN=".data ++ ctx.first_name ++ " ".data ++
                ctx.last_name ++ ":mailto:".data ++ ctx.email,
              "ATTENDEE;CN=".data ++ b.invitee_name ++
                ";RSVP=TRUE:mailto:".data ++ b.invitee_email,
              "STATUS:CONFIRMED".data,
              "TRANSP:OPAQUE".data,
              "SEQUENCE:0".data,
              descriptionLinkLine b,
              "LOCATION:".data ++ b.location_details,
              "END:VEVENT".data,
              "END:VCALENDAR".data] := by
        simp [icalLines, hml, hloc]
      rw [hlist]
      simp only [joinCRLF]
      rw [splitNl_crlf _ _ (by decide), splitNl_crlf _ _ (by decide),
        splitNl_crlf _ _ (by decide), splitNl_crlf _ _ (by decide),
        splitNl_crlf _ _ (by decide), splitNl_crlf _ _ (by decide),
        splitNl_crlf _ _ nl7, splitNl_crlf _ _ nl8, splitNl_crlf _ _ nl9,
        splitNl_crlf _ _ nl10, splitNl_crlf _ _ nl11, splitNl_crlf _ _ nl12,
        splitNl_crlf _ _ nl13, splitNl_crlf _ _ nl14, splitNl_crlf _ _ nl15,
        splitNl_crlf _ _ (by decide), splitNl_crlf _ _ (by decide),
        splitNl_crlf _ _ (by decide),
        splitNl_crlf _ _ nl19,
        splitNl_crlf _ _ nl20,
        splitNl_crlf _ _ (by decide), splitNl_no_nl _ (by decide)]
      rw [collectProps_skip_pre _ _ _ (by decide) (by decide),
        collectProps_skip_pre _ _ _ (by decide) (by decide),
        collectProps_skip_pre _ _ _ (by decide) (by decide),
        collectProps_skip_pre _ _ _ (by decide) (by decide),
        collectProps_skip_pre _ _ _ (by decide) (by decide),
        collectProps_begin _ _ _ _ (by decide),
        collectProps_bind _ _ _ (by rw [st7]; simp) (by rw [st7]; simp)
          (by rw [st7]; simp),
        collectProps_bind _ _ _ (by rw [st8]; simp) (by rw [st8]; simp)
          (by rw [st8]; simp),
        collectProps_bind _ _ _ (by rw [st9]; simp) (by rw [st9]; simp)
          (by rw [st9]; simp),
        collectProps_bind _ _ _ (by rw [st10]; simp) (by rw [st10]; simp)
          (by rw [st10]; simp),
        collectProps_bind _ _ _ (by rw [st11]; simp) (by rw [st11]; simp)
          (by rw [st11]; simp),
        collectProps_bind _ _ _ (by rw [st12]; simp) (by rw [st12]; simp)
          (by rw [st12]; simp),
        collectProps_bind _ _ _ (by rw [st13]; simp) (by rw [st13]; simp)
          (by rw [st13]; simp),
        collectProps_bind _ _ _ (by rw [st14]; simp) (by rw [st14]; simp)
          (by rw [st14]
              exact List.mem_append.2 (Or.inr (mem_dropTrailWs (by decide)
                (by simp)))),
        collectProps_bind _ _ _ (by rw [st15]; simp) (by rw [st15]; simp)
          (by rw [st15]
              exact List.mem_append.2 (Or.inr (mem_dropTrailWs (by decide)
                (by simp)))),
        collectProps_bind _ _ _ (by decide) (by decide) (by decide),
        collectProps_bind _ _ _ (by decide) (by decide) (by decide),
        collectProps_bind _ _ _ (by decide) (by decide) (by decide),
        collectProps_bind _ _ _ (by rw [st19]; simp) (by rw [st19]; simp)
          (by rw [st19]; simp),
        collectProps_bind _ _ _ (by rw [st20]; simp) (by rw [st20]; simp)
          (by rw [st20]; simp),
        collectProps_stop _ _ _ _ (by decide)]
      rw [st7, st8, st9, st10, st11, st12, st13, st14, st15, stS, stT,
        stQ, st19, st20]
      simp [dictFind, hds, hde]

set_option maxRecDepth 10000 in
/-- C4 counterexample: a booking whose location text embeds a newline
followed by a DTSTART line injects that line into the generated body; the
parser collects the later binding, so the parsed start is the injected 2030
instant, not the booking start — the claim as stated, which constrains only
the times, is false. -/
theorem apple_ical_event_roundtrip_counterexample :
    (apple_parse_ical_event 0 (_create_ical_event
        ⟨"Ada".data, "Lovelace".data, "ada@example.com".data, 0⟩
        ⟨⟨2024, 5, 1, 10, 0, 0⟩, ⟨2024, 5, 1, 11, 0, 0⟩,
          ⟨2024, 4, 30, 9, 0, 0⟩, "Alex".data, "alex@example.com".data,
          "Intro".data, "Room 1\nDTSTART:20300101T000000Z".data, []⟩
        "booking-1@calendly-clone.com".data)).map
      (fun e => (e.external_id, e.start_datetime, e.end_datetime)) =
      some ("booking-1@calendly-clone.com".data, ⟨2030, 1, 1, 0, 0, 0⟩,
        ⟨2024, 5, 1, 11, 0, 0⟩) ∧
    (⟨2030, 1, 1, 0, 0, 0⟩ : DateTime) ≠ ⟨2024, 5, 1, 10, 0, 0⟩ := by
  exact ⟨by decide, by decide⟩

set_option maxRecDepth 10000 in
/-- Witness for C4: a concrete clean booking round-trips to its uid and
times. -/
theorem apple_ical_event_roundtrip_witness :
    (apple_parse_ical_event (60 : Int) (_create_ical_event
        ⟨"Ada".data, "Lovelace".data, "ada@example.com".data, 60⟩
        ⟨⟨2024, 5, 1, 10, 0, 0⟩, ⟨2024, 5, 1, 11, 0, 0⟩,
          ⟨2024, 4, 30, 9, 0, 0⟩, "Alex".data, "alex@example.com".data,
          "Intro".data, [], []⟩
        "booking-1@calendly-clone.com".data)).map
      (fun e => (e.external_id, e.start_datetime, e.end_datetime)) =
      some ("booking-1@calendly-clone.com".data, ⟨2024, 5, 1, 10, 0, 0⟩,
        ⟨2024, 5, 1, 11, 0, 0⟩) :=
  apple_ical_event_roundtrip
    ⟨"Ada".data, "Lovelace".data, "ada@example.com".data, 60⟩
    ⟨⟨2024, 5, 1, 10, 0, 0⟩, ⟨2024, 5, 1, 11, 0, 0⟩,
      ⟨2024, 4, 30, 9, 0, 0⟩, "Alex".data, "alex@example.com".data,
      "Intro".data, [], []⟩
    "booking-1@calendly-clone.com".data (by decide) (by decide) (by decide)
    (by decide) (by decide) (by decide) (by decide) (by decide) (by decide)
    (by decide) (by decide)
    (by
      intro c hc
      rw [show List.getLast?
        ("booking-1@calendly-clone.com".data : Str) = some 'm' from rfl]
        at hc
      injection hc with h
      rw [← h]
      decide)
